import Mathlib

/-!
Shallow embedding of the Azure NetApp Files NAS storage driver
(`storage_drivers/azure/azure_anf.go`) for verifying its natural-language
specification.  The effectful interactions of the driver with the Backend Client
(the `api.Azure` SDK, an external collaborator per the spec) are modelled by
passing the results of each SDK call in explicitly as an environment, and by
recording the backend calls the driver issues as an explicit trace.
Machine integers (`uint64` sizes, `int64` quotas) are modelled as `Nat`/`Int`
with explicit twos-complement conversion where Go converts between them.
-/

namespace ANF

/-- Provisioning states of a backend object
(api.StateAccepted .. api.StateReverting). -/
inductive ProvisioningState
  | accepted
  | creating
  | available
  | error
  | deleting
  | deleted
  | moving
  | reverting
  deriving DecidableEq, Repr

/-- Errors returned by driver operations, mirroring the error taxonomy the
driver uses: plain formatted errors, errors.VolumeCreatingError (retryable
"still creating"), drivers.NewVolumeExistsError (hard duplicate), and the
multierr combination used by capacity-pool placement. -/
inductive DriverError
  | generic (msg : String)
  | volumeCreating (msg : String)
  | volumeExists (name : String)
  | combined (msgs : List String)
  deriving DecidableEq, Repr

/-- Timeout classes used by the driver: d.defaultTimeout() for most
workflows versus the longer d.volumeCreateTimeout for create-class waits
(and api.SnapshotTimeout for snapshot waits). -/
inductive TimeoutKind
  | defaultTimeout
  | volumeCreateTimeout
  | snapshotTimeout
  deriving DecidableEq, Repr

/-- An export rule (api.ExportRule). -/
structure ExportRule where
  allowedClients : String
  cifs : Bool
  nfsv3 : Bool
  nfsv41 : Bool
  ruleIndex : Nat
  unixReadOnly : Bool
  unixReadWrite : Bool
  kerberos5ReadWrite : Bool
  kerberos5IReadWrite : Bool
  kerberos5PReadWrite : Bool
  deriving DecidableEq, Repr

/-- An export policy (api.ExportPolicy): a list of export rules. -/
structure ExportPolicy where
  rules : List ExportRule
  deriving DecidableEq, Repr

/-- A capacity-pool candidate (api.CapacityPool), as used by Create. -/
structure CapacityPool where
  resourceGroup : String
  netAppAccount : String
  name : String
  deriving DecidableEq, Repr

/-- A subnet (api.Subnet), as used by Create. -/
structure Subnet where
  id : String
  deriving DecidableEq, Repr

/-- A backend volume (api.FileSystem), restricted to the fields the driver
reads in the operations under verification. -/
structure FileSystem where
  id : String
  name : String
  creationToken : String
  provisioningState : ProvisioningState
  quotaInBytes : Int
  snapshotDirectory : Bool
  kerberosEnabled : Bool
  resourceGroup : String
  netAppAccount : String
  capacityPool : String
  subnetID : String
  unixPermissions : String
  networkFeatures : String
  protocolTypes : List String
  exportPolicy : ExportPolicy
  labels : List (String × String)
  deriving DecidableEq, Repr

/-- A backend snapshot (api.Snapshot), restricted to the fields the driver
reads. -/
structure Snapshot where
  name : String
  snapshotID : String
  provisioningState : ProvisioningState
  deriving DecidableEq, Repr

/-- The volume create request (api.FilesystemCreateRequest). -/
structure FilesystemCreateRequest where
  resourceGroup : String
  netAppAccount : String
  capacityPool : String
  name : String
  subnetID : String
  creationToken : String
  labels : List (String × String)
  protocolTypes : List String
  quotaInBytes : Int
  snapshotDirectory : Bool
  networkFeatures : String
  kerberosEnabled : Bool
  unixPermissions : String
  exportPolicy : ExportPolicy
  snapshotID : String
  deriving DecidableEq, Repr

/-- Mount options are modelled abstractly: the raw option string (which the
driver itself only ever tests against the empty string) together with the
NFS version the options specify, if any (the part that
utils.GetNFSVersionFromMountOptions, which lives outside this embedding,
extracts from the raw string). -/
structure MountOptions where
  raw : String
  nfsVersion : Option String
  deriving DecidableEq, Repr

/-- The volume configuration (storage.VolumeConfig), restricted to the
fields the driver reads or writes in the operations under verification.
The Size field is a byte-count string in the source, converted with
utils.ConvertSizeToBytes; it is modelled directly as the byte count. -/
structure VolumeConfig where
  name : String
  internalName : String
  internalID : String
  size : Nat
  serviceLevel : String
  snapshotDir : String
  unixPermissions : String
  mountOptions : MountOptions
  readOnlyClone : Bool
  cloneSourceVolumeInternal : String
  cloneSourceSnapshot : String
  cloneSourceSnapshotInternal : String
  deriving DecidableEq, Repr

/-- The per-pool internal attributes Create reads from the storage pool
(pool.InternalAttributes()).  The default size attribute is a byte-count
string in the source; it is modelled directly as the byte count. -/
structure PoolInternalAttributes where
  size : Nat
  serviceLevel : String
  snapshotDir : String
  unixPermissions : String
  exportRule : String
  networkFeatures : String
  kerberos : String
  deriving DecidableEq, Repr

/-- The driver configuration fields read by the operations under
verification.  The limitVolumeSize field feeds drivers.CheckVolumeSizeLimits;
none means no limit is configured. -/
structure DriverConfig where
  nasType : String
  nfsMountOptions : MountOptions
  limitVolumeSize : Option Nat
  storagePfx : String
  subscriptionID : String
  deriving DecidableEq, Repr

/-- A backend call issued by the driver, as recorded in the trace. -/
inductive BackendCall
  | createVolume (request : FilesystemCreateRequest)
  | deleteVolume (volumeId : String)
  | resizeVolume (volumeId : String) (newSizeBytes : Int)
  | waitForVolumeState (volumeId : String) (desiredState : ProvisioningState) (timeout : TimeoutKind)
  | createSnapshot (volumeId : String) (snapName : String)
  | waitForSnapshotState (snapName : String) (desiredState : ProvisioningState) (timeout : TimeoutKind)
  deriving DecidableEq, Repr

/-- Constants from the top of azure_anf.go. -/
def MinimumVolumeSizeBytes : Nat := 1000000000

/-- MinimumANFVolumeSizeBytes from azure_anf.go: the 100-GiB protocol floor. -/
def MinimumANFVolumeSizeBytes : Nat := 107374182400

/-- NFS version constants from azure_anf.go. -/
def nfsVersion3 : String := "3"

/-- NFS version constant for v4. -/
def nfsVersion4 : String := "4"

/-- NFS version constant for v4.1. -/
def nfsVersion41 : String := "4.1"

/-- supportedNFSVersions from azure_anf.go. -/
def supportedNFSVersions : List String := [nfsVersion3, nfsVersion4, nfsVersion41]

/-- Modelled from the spec: the api package (repository code not under src/)
defines the mount-option constant naming the krb5 kerberos security flavor. -/
def MountOptionKerberos5 : String := "sec=krb5"

/-- Modelled from the spec: the api-package constant for the krb5i flavor. -/
def MountOptionKerberos5I : String := "sec=krb5i"

/-- Modelled from the spec: the api-package constant for the krb5p flavor. -/
def MountOptionKerberos5P : String := "sec=krb5p"

/-- Modelled from the spec: the api-package protocol-type constant for NFSv3. -/
def ProtocolTypeNFSv3 : String := "NFSv3"

/-- Modelled from the spec: the api-package protocol-type constant for NFSv4.1. -/
def ProtocolTypeNFSv41 : String := "NFSv4.1"

/-- Modelled from the spec: the api-package protocol-type constant for CIFS. -/
def ProtocolTypeCIFS : String := "CIFS"

/-- The storage_attribute constant sa.NFS. -/
def NASTypeNFS : String := "nfs"

/-- The storage_attribute constant sa.SMB. -/
def NASTypeSMB : String := "smb"

/-- Conversion of a Go uint64 value (modelled as Nat, already reduced
mod 2^64) to int64, as in the Go conversion int64(sizeBytes). -/
def toInt64 (n : Nat) : Int :=
  (((n : Int) + 2 ^ 63) % 2 ^ 64) - 2 ^ 63

/-- Character-class test for the ASCII letters accepted by the name regexes of the driver ([a-zA-Z]). -/
def isAsciiLetter (c : Char) : Bool :=
  (97 ≤ c.toNat && c.toNat ≤ 122) || (65 ≤ c.toNat && c.toNat ≤ 90)

/-- Character-class test for ASCII digits ([0-9], Go regexp \d). -/
def isAsciiDigit (c : Char) : Bool :=
  48 ≤ c.toNat && c.toNat ≤ 57

/-- Matching of volumeNameRegex from azure_anf.go:
a letter followed by up to 63 letters, digits, hyphens or underscores. -/
def volumeNameMatches (s : String) : Bool :=
  match s.data with
  | [] => false
  | c :: rest =>
      isAsciiLetter c && rest.length ≤ 63 &&
        rest.all (fun x => isAsciiLetter x || isAsciiDigit x || x.toNat = 45 || x.toNat = 95)

/-- Matching of volumeCreationTokenRegex from azure_anf.go:
a letter followed by up to 79 letters, digits or hyphens. -/
def creationTokenMatches (s : String) : Bool :=
  match s.data with
  | [] => false
  | c :: rest =>
      isAsciiLetter c && rest.length ≤ 79 &&
        rest.all (fun x => isAsciiLetter x || isAsciiDigit x || x.toNat = 45)

/-- Modelled from the Go standard function strconv.ParseBool (standard library, outside this
repository), used by Create on the resolved snapshotDir attribute. -/
def parseBool (s : String) : Except String Bool :=
  if s = "1" || s = "t" || s = "T" || s = "true" || s = "TRUE" || s = "True" then
    Except.ok true
  else if s = "0" || s = "f" || s = "F" || s = "false" || s = "FALSE" || s = "False" then
    Except.ok false
  else
    Except.error ("strconv.ParseBool: parsing " ++ s ++ ": invalid syntax")

/-- Modelled from the spec: utils.Title (repository code not under src/)
canonicalizes the service-level capitalization; no claim depends on the
exact transformation and the empty string maps to itself, so it is modelled
as the identity. -/
def Title (s : String) : String := s

/-- Modelled from the spec: utils.GetNFSVersionFromMountOptions (repository
code not under src/) parses the desired NFS version from the mount options,
defaulting when none is specified, and fails unless the version is one of
the supported versions. -/
def GetNFSVersionFromMountOptions
    (mountOptions : MountOptions) (defaultVersion : String)
    (supportedVersions : List String) : Except String String :=
  match mountOptions.nfsVersion with
  | none => Except.ok defaultVersion
  | some v =>
      if supportedVersions.contains v then Except.ok v
      else Except.error ("unsupported NFS version: " ++ v)

/-- Modelled from the spec: drivers.CheckMinVolumeSize (repository code not
under src/) enforces the generic minimum size, a hard failure below it. -/
def CheckMinVolumeSize (sizeBytes minimumSize : Nat) : Option String :=
  if sizeBytes < minimumSize then
    some ("requested size " ++ toString sizeBytes ++
      " is less than the minimum volume size " ++ toString minimumSize)
  else
    none

/-- Modelled from the spec: drivers.CheckVolumeSizeLimits (repository code
not under src/) enforces the configured maximum volume size, a hard failure
if exceeded; no configured limit means no ceiling. -/
def CheckVolumeSizeLimits (sizeBytes : Nat) (limitVolumeSize : Option Nat) : Option String :=
  match limitVolumeSize with
  | none => none
  | some limit =>
      if limit < sizeBytes then
        some ("requested size " ++ toString sizeBytes ++
          " exceeds the limit volume size " ++ toString limit)
      else
        none

/-- The environment for waitForVolumeCreate: the outcome of the WaitForVolumeState SDK call toward Available (final observed state plus error),
and the outcomes of the two possible cleanup calls (the wait toward Deleted
in the Deleting branch, the DeleteVolume in the Error branch). -/
structure WaitCreateEnv where
  finalState : ProvisioningState
  waitErr : Option String
  cleanupWaitDeletedErr : Option String
  cleanupDeleteErr : Option String

/-- Embedding of waitForVolumeCreate (azure_anf.go lines 1374-1415): wait
for the volume to reach Available; on error, branch on the observed state:
Accepted/Creating yields a retryable VolumeCreatingError; Deleting waits for
Deleted (failure only logged); Error deletes the failed volume (failure only
logged); any other state is logged and passed through.  Returns the driver
error (none is a nil error) and the trace of backend calls issued. -/
def waitForVolumeCreate (env : WaitCreateEnv) (volume : FileSystem) :
    Option DriverError × List BackendCall :=
  let waitCall := BackendCall.waitForVolumeState volume.id ProvisioningState.available
    TimeoutKind.volumeCreateTimeout
  match env.waitErr with
  | none => (none, [waitCall])
  | some err =>
      match env.finalState with
      | ProvisioningState.accepted => (some (DriverError.volumeCreating err), [waitCall])
      | ProvisioningState.creating => (some (DriverError.volumeCreating err), [waitCall])
      | ProvisioningState.deleting =>
          -- Wait for deletion to complete; a failure of this wait is only logged.
          (none, [waitCall,
            BackendCall.waitForVolumeState volume.id ProvisioningState.deleted
              TimeoutKind.defaultTimeout])
      | ProvisioningState.error =>
          -- Delete a failed volume; a failure of this delete is only logged.
          (none, [waitCall, BackendCall.deleteVolume volume.id])
      | _ => (none, [waitCall])

/-- The placement error message built for a failed candidate
(azure_anf.go line 961). -/
def createErrMessage (cPool : CapacityPool) (name err : String) : String :=
  "ANF pool " ++ cPool.name ++ "; error creating volume " ++ name ++ ": " ++ err

/-- Embedding of the capacity-pool placement loop of Create (azure_anf.go lines
911-972): try each candidate in listed order, accumulating each failure
message; the first success short-circuits with the created volume.  Returns
either the created volume or the accumulated failure messages, together
with the trace of create calls issued. -/
def tryCapacityPools
    (createVolume : FilesystemCreateRequest → Except String FileSystem)
    (mkRequest : CapacityPool → FilesystemCreateRequest) (name : String) :
    List CapacityPool → Except (List String) FileSystem × List BackendCall
  | [] => (Except.error [], [])
  | cPool :: rest =>
      let request := mkRequest cPool
      match createVolume request with
      | Except.ok volume => (Except.ok volume, [BackendCall.createVolume request])
      | Except.error createErr =>
          let msg := createErrMessage cPool name createErr
          let restResult := tryCapacityPools createVolume mkRequest name rest
          (match restResult.1 with
           | Except.ok volume => Except.ok volume
           | Except.error msgs => Except.error (msg :: msgs),
           BackendCall.createVolume request :: restResult.2)

/-- The environment for Create: the result of each SDK / collaborator call
Create makes, in source order.  extantVolume models the (bool, volume) pair
returned by VolumeExists: none means the volume does not exist. -/
structure SdkCreateEnv where
  refreshErr : Option String
  acpInflightEncryptionErr : Option String
  volumeExistsErr : Option String
  extantVolume : Option FileSystem
  hasFeatureUnixPermissions : Bool
  telemetryLabel : String
  poolLabels : Except String String
  subnet : Option Subnet
  capacityPools : List CapacityPool
  createVolume : FilesystemCreateRequest → Except String FileSystem
  wait : WaitCreateEnv

/-- The outcome of a driver operation that may mutate the volume config:
the returned error (none is a nil error), the trace of backend calls
issued, and the volume config as left by the call. -/
structure CreateOutcome where
  result : Option DriverError
  calls : List BackendCall
  volConfig : VolumeConfig
  deriving Repr

/-- Substitution of a zero requested size with the pool default size
(azure_anf.go lines 756-759). -/
def resolveSizeBytes (volSize poolSize : Nat) : Nat :=
  if volSize = 0 then poolSize else volSize

/-- Silent raising of a size below the 100-GiB ANF floor to the floor
(azure_anf.go lines 764-772). -/
def raiseToANFMinimum (sizeBytes : Nat) : Nat :=
  if sizeBytes < MinimumANFVolumeSizeBytes then MinimumANFVolumeSizeBytes else sizeBytes

/-- Classification of the kerberos pool attribute (azure_anf.go lines
820-827): the three flavors enable kerberos, the empty string disables it,
anything else is an error. -/
def kerberosEnabledFor (kerberos : String) : Except String Bool :=
  if kerberos = MountOptionKerberos5 || kerberos = MountOptionKerberos5I ||
      kerberos = MountOptionKerberos5P then
    Except.ok true
  else if kerberos = "" then
    Except.ok false
  else
    Except.error ("unsupported kerberos type: " ++ kerberos)

/-- The NFSv3/NFSv4.1 access flags derived from the vetted NFS version
(azure_anf.go lines 836-845); returns (nfsV3Access, nfsV41Access). -/
def nfsAccessFlags (nfsVersion : String) : Bool × Bool :=
  if nfsVersion = nfsVersion3 then (true, false)
  else if nfsVersion = nfsVersion4 || nfsVersion = nfsVersion41 then (false, true)
  else (false, false)

/-- The protocol-type list derived from the vetted NFS version
(azure_anf.go lines 836-845). -/
def nfsProtocolTypesFor (nfsVersion : String) : List String :=
  if nfsVersion = nfsVersion3 then [ProtocolTypeNFSv3]
  else if nfsVersion = nfsVersion4 || nfsVersion = nfsVersion41 then [ProtocolTypeNFSv41]
  else []

/-- The kerberos override of the export rule (azure_anf.go lines 857-872):
clear the NFSv3 and generic unix read-only/read-write flags, set NFSv4.1
access, and set exactly the read-write flag of the configured flavor. -/
def applyKerberosToExportRule (kerberos : String) (r : ExportRule) : ExportRule :=
  let r := { r with nfsv3 := false, nfsv41 := true,
                    unixReadOnly := false, unixReadWrite := false }
  if kerberos = MountOptionKerberos5 then { r with kerberos5ReadWrite := true }
  else if kerberos = MountOptionKerberos5I then { r with kerberos5IReadWrite := true }
  else if kerberos = MountOptionKerberos5P then { r with kerberos5PReadWrite := true }
  else r

/-- The export rule Create builds for the NFS case before any kerberos
override (azure_anf.go lines 847-855). -/
def baseNfsExportRule (allowedClients : String) (nfsV3Access nfsV41Access : Bool) : ExportRule :=
  { allowedClients := allowedClients
    cifs := false
    nfsv3 := nfsV3Access
    nfsv41 := nfsV41Access
    ruleIndex := 1
    unixReadOnly := false
    unixReadWrite := true
    kerberos5ReadWrite := false
    kerberos5IReadWrite := false
    kerberos5PReadWrite := false }

/-- The create request Create builds for a given capacity-pool candidate
(azure_anf.go lines 937-956): unix permissions and export policy are added
only for an NFS backend. -/
def mkCreateRequest (nasType : String) (cPool : CapacityPool) (volName subnetID name : String)
    (labels : List (String × String)) (protocolTypes : List String) (sizeBytes : Nat)
    (snapshotDirBool : Bool) (networkFeatures : String) (kerberosEnabled : Bool)
    (unixPermissions : String) (exportPolicy : ExportPolicy) : FilesystemCreateRequest :=
  let base : FilesystemCreateRequest :=
    { resourceGroup := cPool.resourceGroup
      netAppAccount := cPool.netAppAccount
      capacityPool := cPool.name
      name := volName
      subnetID := subnetID
      creationToken := name
      labels := labels
      protocolTypes := protocolTypes
      quotaInBytes := toInt64 sizeBytes
      snapshotDirectory := snapshotDirBool
      networkFeatures := networkFeatures
      kerberosEnabled := kerberosEnabled
      unixPermissions := ""
      exportPolicy := { rules := [] }
      snapshotID := "" }
  if nasType = NASTypeNFS then
    { base with unixPermissions := unixPermissions, exportPolicy := exportPolicy }
  else
    base

/-- Embedding of the protocol determination of Create (azure_anf.go lines
829-877): an SMB backend uses CIFS; otherwise the NFS version is parsed
from the mount options (default 3) and vetted, the export rule is built,
and a kerberos-enabled pool forces NFSv4.1 and the kerberos export-rule
shape.  Returns the protocol types and the export policy. -/
def resolveProtocolInfo (nasType : String) (mountOptions : MountOptions)
    (poolExportRule kerberos : String) (kerberosEnabled : Bool) :
    Except String (List String × ExportPolicy) :=
  if nasType = NASTypeSMB then
    Except.ok ([ProtocolTypeCIFS], { rules := [] })
  else
    match GetNFSVersionFromMountOptions mountOptions nfsVersion3 supportedNFSVersions with
    | Except.error e => Except.error e
    | Except.ok nfsVersion =>
        let accessFlags := nfsAccessFlags nfsVersion
        let protocolTypesNfs := nfsProtocolTypesFor nfsVersion
        let ruleBase := baseNfsExportRule poolExportRule accessFlags.1 accessFlags.2
        let protocolTypes := if kerberosEnabled then [ProtocolTypeNFSv41] else protocolTypesNfs
        let rule := if kerberosEnabled then applyKerberosToExportRule kerberos ruleBase else ruleBase
        Except.ok (protocolTypes, { rules := [rule] })

/-- Embedding of the tail of Create after the subnet has been resolved
(azure_anf.go lines 902-975): fail when no capacity pools match, otherwise
run the placement loop; on total failure return the combined error
(multierr.Combine of no errors is nil), on success persist the
backend-assigned ID on the volume config and run waitForVolumeCreate. -/
def createPlacementTail (spName : String) (env : SdkCreateEnv)
    (rq : CapacityPool → FilesystemCreateRequest) (name : String) (vcU : VolumeConfig) :
    CreateOutcome :=
  if env.capacityPools.isEmpty then
    ⟨some (DriverError.generic ("no capacity pools found for storage pool " ++ spName)), [], vcU⟩
  else
    let loopResult := tryCapacityPools env.createVolume rq name env.capacityPools
    match loopResult.1 with
    | Except.error msgs =>
        ⟨if msgs.isEmpty then none else some (DriverError.combined msgs), loopResult.2, vcU⟩
    | Except.ok volume =>
        let waitResult := waitForVolumeCreate env.wait volume
        ⟨waitResult.1, loopResult.2 ++ waitResult.2, { vcU with internalID := volume.id }⟩

/-- Modelled from the spec: the label key drivers.TridentLabelTag
(repository code not under src/). -/
def TridentLabelTag : String := "trident"

/-- Modelled from the spec: the label key storage.ProvisioningLabelTag
(repository code not under src/). -/
def ProvisioningLabelTag : String := "provisioning"

/-- The message of the retryable "still creating" error built by Create and
CreateClone (azure_anf.go lines 735-736 and 1045-1046), with the state
constants api.StateCreating and api.StateAvailable substituted in. -/
def volumeCreatingMsg : String := "volume state is still Creating, not Available"

/-- The validation error message of validateVolumeName
(azure_anf.go lines 123-129). -/
def volumeNameErrMessage (name : String) : String :=
  "volume name " ++ name ++ " is not allowed; it must be 1-64 characters long, " ++
    "begin with a letter, and contain only letters, digits, hyphens, and underscores"

/-- The validation error message of validateCreationToken
(azure_anf.go lines 132-138). -/
def creationTokenErrMessage (name : String) : String :=
  "volume internal name " ++ name ++ " is not allowed; it must be 1-80 characters long, " ++
    "begin with a letter, and contain only letters, digits, and hyphens"

/-- Embedding of Create (azure_anf.go lines 679-975).  The driver state is
passed as the driver config and the pool catalog (d.pools); storagePoolName
models the storagePool argument, none standing for a nil pool; the SDK and
collaborator call results come from env.  The embedding follows the source
step by step: refresh the resource cache, validate the name and the creation
token, look up the pool, gate kerberos pools on the ACP entitlement, check
existence by creation token (Creating duplicate gives the retryable
VolumeCreatingError, any other duplicate the hard VolumeExistsError),
resolve and bound the size, resolve service level / snapshot directory /
unix permissions / mount options, classify the kerberos attribute, derive
the protocol types and export policy, build the labels, update the volume
config in place, resolve the subnet and the capacity-pool candidates, and
run the placement loop followed by waitForVolumeCreate. -/
def create (config : DriverConfig) (pools : List (String × PoolInternalAttributes))
    (storagePoolName : Option String) (volConfig : VolumeConfig) (env : SdkCreateEnv) :
    CreateOutcome :=
  let name := volConfig.internalName
  match env.refreshErr with
  | some e =>
      ⟨some (DriverError.generic ("could not update ANF resource cache; " ++ e)), [], volConfig⟩
  | none =>
  if !volumeNameMatches volConfig.name then
    ⟨some (DriverError.generic (volumeNameErrMessage volConfig.name)), [], volConfig⟩
  else if !creationTokenMatches name then
    ⟨some (DriverError.generic (creationTokenErrMessage name)), [], volConfig⟩
  else
  match storagePoolName with
  | none => ⟨some (DriverError.generic "pool not specified"), [], volConfig⟩
  | some spName =>
  match pools.lookup spName with
  | none => ⟨some (DriverError.generic ("pool " ++ spName ++ " does not exist")), [], volConfig⟩
  | some pool =>
  -- The ACP check runs only when the kerberos pool attribute is set.
  match (if pool.kerberos = "" then none else env.acpInflightEncryptionErr) with
  | some e =>
      ⟨some (DriverError.generic ("feature inflight-encryption requires ACP; " ++ e)), [], volConfig⟩
  | none =>
  match env.volumeExistsErr with
  | some e =>
      ⟨some (DriverError.generic ("error checking for existing volume " ++ name ++ "; " ++ e)),
        [], volConfig⟩
  | none =>
  match env.extantVolume with
  | some extant =>
      if extant.provisioningState = ProvisioningState.creating then
        ⟨some (DriverError.volumeCreating volumeCreatingMsg), [], volConfig⟩
      else
        ⟨some (DriverError.volumeExists name), [], volConfig⟩
  | none =>
  let sizeBytes0 := resolveSizeBytes volConfig.size pool.size
  match CheckMinVolumeSize sizeBytes0 MinimumVolumeSizeBytes with
  | some e => ⟨some (DriverError.generic e), [], volConfig⟩
  | none =>
  let sizeBytes := raiseToANFMinimum sizeBytes0
  match CheckVolumeSizeLimits sizeBytes config.limitVolumeSize with
  | some e => ⟨some (DriverError.generic e), [], volConfig⟩
  | none =>
  let serviceLevelFromConfig := Title volConfig.serviceLevel
  let serviceLevel :=
    if serviceLevelFromConfig = "" then pool.serviceLevel else serviceLevelFromConfig
  let snapshotDir := if volConfig.snapshotDir = "" then pool.snapshotDir else volConfig.snapshotDir
  match parseBool snapshotDir with
  | Except.error e => ⟨some (DriverError.generic ("invalid value for snapshotDir; " ++ e)), [], volConfig⟩
  | Except.ok snapshotDirBool =>
  let unixPermissionsResolved :=
    if volConfig.unixPermissions = "" then pool.unixPermissions else volConfig.unixPermissions
  let unixPermissions :=
    if unixPermissionsResolved = "" ∧ env.hasFeatureUnixPermissions then "0777"
    else unixPermissionsResolved
  let mountOptions :=
    if volConfig.mountOptions.raw ≠ "" then volConfig.mountOptions else config.nfsMountOptions
  let kerberos := pool.kerberos
  match kerberosEnabledFor kerberos with
  | Except.error e => ⟨some (DriverError.generic e), [], volConfig⟩
  | Except.ok kerberosEnabled =>
  match resolveProtocolInfo config.nasType mountOptions pool.exportRule kerberos kerberosEnabled with
  | Except.error e => ⟨some (DriverError.generic e), [], volConfig⟩
  | Except.ok protocolInfo =>
  match env.poolLabels with
  | Except.error e => ⟨some (DriverError.generic e), [], volConfig⟩
  | Except.ok poolLabelsJSON =>
  let labels := [(TridentLabelTag, env.telemetryLabel), (ProvisioningLabelTag, poolLabelsJSON)]
  let networkFeatures := pool.networkFeatures
  let volConfigUpdated :=
    { volConfig with size := sizeBytes, serviceLevel := serviceLevel,
                     snapshotDir := snapshotDir, unixPermissions := unixPermissions }
  match env.subnet with
  | none =>
      ⟨some (DriverError.generic ("no subnets found for storage pool " ++ spName)), [],
        volConfigUpdated⟩
  | some subnet =>
  createPlacementTail spName env
    (fun cPool =>
      mkCreateRequest config.nasType cPool volConfig.name subnet.id name labels
        protocolInfo.1 sizeBytes snapshotDirBool networkFeatures kerberosEnabled
        unixPermissions protocolInfo.2)
    name volConfigUpdated

/-- Rendering of a provisioning state as the state string constant of the api package, for the error messages that interpolate states. -/
def ProvisioningState.goString : ProvisioningState → String
  | ProvisioningState.accepted => "Accepted"
  | ProvisioningState.creating => "Creating"
  | ProvisioningState.available => "Available"
  | ProvisioningState.error => "Error"
  | ProvisioningState.deleting => "Deleting"
  | ProvisioningState.deleted => "Deleted"
  | ProvisioningState.moving => "Moving"
  | ProvisioningState.reverting => "Reverting"

/-- The environment for Destroy: the result of each SDK call Destroy may
make, in source order. -/
structure DestroyEnv where
  refreshErr : Option String
  volumeExistsErr : Option String
  extantVolume : Option FileSystem
  waitDeletingBranchErr : Option String
  deleteErr : Option String
  waitDeletedErr : Option String

/-- Embedding of Destroy (azure_anf.go lines 1418-1459): refresh the cache,
check existence (a missing volume is success); a volume already in the
Deleting state only waits for Deleted using the longer volumeCreateTimeout;
otherwise delete the volume and wait for Deleted using the default
timeout. -/
def destroy (volConfig : VolumeConfig) (env : DestroyEnv) :
    Option DriverError × List BackendCall :=
  let name := volConfig.internalName
  match env.refreshErr with
  | some e => (some (DriverError.generic ("could not update ANF resource cache; " ++ e)), [])
  | none =>
  match env.volumeExistsErr with
  | some e =>
      (some (DriverError.generic ("error checking for existing volume " ++ name ++ "; " ++ e)), [])
  | none =>
  match env.extantVolume with
  | none => (none, [])
  | some extant =>
      if extant.provisioningState = ProvisioningState.deleting then
        -- This is a retry, so give it more time before giving up again.
        (env.waitDeletingBranchErr.map DriverError.generic,
          [BackendCall.waitForVolumeState extant.id ProvisioningState.deleted
            TimeoutKind.volumeCreateTimeout])
      else
        match env.deleteErr with
        | some e => (some (DriverError.generic e), [BackendCall.deleteVolume extant.id])
        | none =>
            (env.waitDeletedErr.map DriverError.generic,
              [BackendCall.deleteVolume extant.id,
               BackendCall.waitForVolumeState extant.id ProvisioningState.deleted
                 TimeoutKind.defaultTimeout])

/-- Conversion of a Go int64 value to uint64, as in the Go conversion
uint64(volume.QuotaInBytes). -/
def toUint64 (i : Int) : Nat :=
  (i % 2 ^ 64).toNat

/-- The environment for Resize: the result of each SDK call Resize may
make, in source order. -/
structure ResizeEnv where
  refreshErr : Option String
  volumeResult : Except String FileSystem
  resizeErr : Option String

/-- The outcome of Resize: the returned error, the trace of backend calls
issued, and the volume config as left by the call. -/
structure ResizeOutcome where
  result : Option DriverError
  calls : List BackendCall
  volConfig : VolumeConfig
  deriving Repr

/-- Embedding of Resize (azure_anf.go lines 1859-1915): refresh the cache,
fetch the volume, heal a missing internal ID, require the Available state,
succeed with no backend call when the requested size equals the current
quota, fail with no backend call when it is smaller, enforce the configured
maximum, then issue the backend resize call. -/
def resize (config : DriverConfig) (volConfig : VolumeConfig) (sizeBytes : Nat)
    (env : ResizeEnv) : ResizeOutcome :=
  let name := volConfig.internalName
  match env.refreshErr with
  | some e =>
      ⟨some (DriverError.generic ("could not update ANF resource cache; " ++ e)), [], volConfig⟩
  | none =>
  match env.volumeResult with
  | Except.error e =>
      ⟨some (DriverError.generic ("could not find volume " ++ name ++ "; " ++ e)), [], volConfig⟩
  | Except.ok volume =>
  let volConfigHealed :=
    if volConfig.internalID = "" then { volConfig with internalID := volume.id } else volConfig
  if volume.provisioningState ≠ ProvisioningState.available then
    ⟨some (DriverError.generic ("volume " ++ name ++ " state is " ++
      volume.provisioningState.goString ++ ", not Available")), [], volConfigHealed⟩
  else
  let volConfigSized := { volConfigHealed with size := toUint64 volume.quotaInBytes }
  if toInt64 sizeBytes = volume.quotaInBytes then
    ⟨none, [], volConfigSized⟩
  else if toInt64 sizeBytes < volume.quotaInBytes then
    ⟨some (DriverError.generic ("requested size " ++ toString sizeBytes ++
      " is less than existing volume size " ++ toString volume.quotaInBytes)), [], volConfigSized⟩
  else
  match CheckVolumeSizeLimits sizeBytes config.limitVolumeSize with
  | some e => ⟨some (DriverError.generic e), [], volConfigSized⟩
  | none =>
  match env.resizeErr with
  | some e =>
      ⟨some (DriverError.generic e),
        [BackendCall.resizeVolume volume.id (toInt64 sizeBytes)], volConfigSized⟩
  | none =>
      ⟨none, [BackendCall.resizeVolume volume.id (toInt64 sizeBytes)],
        { volConfigSized with size := sizeBytes }⟩

/-- The environment for List. -/
structure ListEnv where
  refreshErr : Option String
  volumesResult : Except String (List FileSystem)

/-- Modelled from Go strings.HasPrefix (standard library): whether the
string s starts with the prefix string; stated on the character lists so
that it evaluates in the kernel. -/
def hasPfx (s pfx : String) : Bool := pfx.data.isPrefixOf s.data

/-- Modelled from Go string slicing s[len(pfx):]: the string with the
leading prefix-length characters removed. -/
def dropPfx (s pfx : String) : String := String.mk (s.data.drop pfx.length)

/-- Embedding of the List filtering loop (azure_anf.go lines 1820-1835):
skip volumes in the Deleting, Deleted or Error state, skip volumes whose
creation token does not start with the storage prefix, and collect the
creation tokens with the prefix stripped, in listed order. -/
def listVolumeNames (storagePfx : String) : List FileSystem → List String
  | [] => []
  | volume :: rest =>
      let restNames := listVolumeNames storagePfx rest
      match volume.provisioningState with
      | ProvisioningState.deleting => restNames
      | ProvisioningState.deleted => restNames
      | ProvisioningState.error => restNames
      | _ =>
          if hasPfx volume.creationToken storagePfx then
            dropPfx volume.creationToken storagePfx :: restNames
          else
            restNames

/-- Embedding of List (azure_anf.go lines 1802-1838): refresh the cache,
fetch all volumes, and filter them through listVolumeNames using the
configured storage prefix. -/
def listOp (config : DriverConfig) (env : ListEnv) : Except DriverError (List String) :=
  match env.refreshErr with
  | some e => Except.error (DriverError.generic ("could not update ANF resource cache; " ++ e))
  | none =>
  match env.volumesResult with
  | Except.error e => Except.error (DriverError.generic e)
  | Except.ok volumes => Except.ok (listVolumeNames config.storagePfx volumes)

/-- Embedding of constructVolumeAccessPath (azure_anf.go lines 2218-2234):
for a read-only clone the path is rooted at the creation token and
hidden snapshot directory of the clone source, using the source snapshot
name of the clone; for an ordinary volume it is rooted at its own creation
token. -/
def constructVolumeAccessPath (volConfig : VolumeConfig) (volume : FileSystem)
    (protocol : String) : String :=
  if protocol = NASTypeNFS then
    if volConfig.readOnlyClone then
      "/" ++ volConfig.cloneSourceVolumeInternal ++ "/" ++ ".snapshot" ++ "/" ++
        volConfig.cloneSourceSnapshot
    else
      "/" ++ volume.creationToken
  else if protocol = NASTypeSMB then
    if volConfig.readOnlyClone then
      "\\" ++ volConfig.cloneSourceVolumeInternal ++ "\\" ++ "~snapshot" ++ "\\" ++
        volConfig.cloneSourceSnapshot
    else
      "\\" ++ volume.creationToken
  else
    ""

/-- Update of one key in a label map, modelling Go map assignment on the
labels map (insertion order is irrelevant to every claim). -/
def setLabel (labels : List (String × String)) (key value : String) : List (String × String) :=
  if labels.any (fun p => p.1 = key) then
    labels.map (fun p => if p.1 = key then (p.1, value) else p)
  else
    labels ++ [(key, value)]

/-- The environment for CreateClone: the result of each SDK / collaborator
call CreateClone may make, in source order.  nowSnapName models the
timestamp-derived snapshot name time.Now().UTC().Format(...). -/
structure CloneEnv where
  refreshErr : Option String
  sourceVolumeResult : Except String FileSystem
  acpInflightEncryptionErr : Option String
  volumeExistsByIDErr : Option String
  extantVolume : Option FileSystem
  snapshotForVolumeResult : Except String Snapshot
  nowSnapName : String
  createSnapshotResult : Except String Snapshot
  waitSnapshotErr : Option String
  refetchSnapshotResult : Except String Snapshot
  poolLabels : Except String String
  telemetryLabel : String
  createVolume : FilesystemCreateRequest → Except String FileSystem
  wait : WaitCreateEnv

/-- Embedding of the source-snapshot resolution of CreateClone (azure_anf.go
lines 1051-1104): a named snapshot must exist and be Available; otherwise a
snapshot named from the current UTC timestamp is created, waited to
Available, and re-fetched for its final metadata. -/
def resolveCloneSourceSnapshot (env : CloneEnv) (sourceVolume : FileSystem)
    (snapshot : String) : Except String Snapshot × List BackendCall :=
  if snapshot ≠ "" then
    match env.snapshotForVolumeResult with
    | Except.error e => (Except.error ("could not find source snapshot; " ++ e), [])
    | Except.ok sourceSnapshot =>
        if sourceSnapshot.provisioningState ≠ ProvisioningState.available then
          (Except.error ("source snapshot state is " ++
            sourceSnapshot.provisioningState.goString ++ ", it must be Available"), [])
        else
          (Except.ok sourceSnapshot, [])
  else
    match env.createSnapshotResult with
    | Except.error e =>
        (Except.error ("could not create source snapshot; " ++ e),
          [BackendCall.createSnapshot sourceVolume.id env.nowSnapName])
    | Except.ok created =>
        let calls := [BackendCall.createSnapshot sourceVolume.id env.nowSnapName,
          BackendCall.waitForSnapshotState created.name ProvisioningState.available
            TimeoutKind.snapshotTimeout]
        match env.waitSnapshotErr with
        | some e => (Except.error e, calls)
        | none =>
            match env.refetchSnapshotResult with
            | Except.error _ => (Except.error "could not retrieve newly-created snapshot", calls)
            | Except.ok refetched => (Except.ok refetched, calls)

/-- Embedding of CreateClone (azure_anf.go lines 978-1174): refresh the
cache, validate the name and creation token, fetch the source volume, gate
a kerberos-enabled source on the ACP entitlement, check for a pre-existing
clone by its deterministic ID (Creating duplicate gives the retryable
VolumeCreatingError), resolve the source snapshot, realize a read-only
clone purely as a path reference (hard failure when the source lacks
snapshot-directory access, and never a backend volume create call),
otherwise build a create-from-snapshot request inheriting the shape of
the source and run it through waitForVolumeCreate.  storagePoolUnset models
storage.IsStoragePoolUnset(storagePool). -/
def createClone (config : DriverConfig) (cloneVolConfig : VolumeConfig)
    (storagePoolUnset : Bool) (env : CloneEnv) : CreateOutcome :=
  let name := cloneVolConfig.internalName
  let snapshot := cloneVolConfig.cloneSourceSnapshotInternal
  match env.refreshErr with
  | some e =>
      ⟨some (DriverError.generic ("could not update ANF resource cache; " ++ e)), [],
        cloneVolConfig⟩
  | none =>
  if !volumeNameMatches cloneVolConfig.name then
    ⟨some (DriverError.generic (volumeNameErrMessage cloneVolConfig.name)), [], cloneVolConfig⟩
  else if !creationTokenMatches name then
    ⟨some (DriverError.generic (creationTokenErrMessage name)), [], cloneVolConfig⟩
  else
  match env.sourceVolumeResult with
  | Except.error e =>
      ⟨some (DriverError.generic ("could not find source volume; " ++ e)), [], cloneVolConfig⟩
  | Except.ok sourceVolume =>
  -- The ACP check runs only when the source volume has kerberos enabled.
  match (if sourceVolume.kerberosEnabled then env.acpInflightEncryptionErr else none) with
  | some e =>
      ⟨some (DriverError.generic ("feature inflight-encryption requires ACP; " ++ e)), [],
        cloneVolConfig⟩
  | none =>
  match env.volumeExistsByIDErr with
  | some e =>
      ⟨some (DriverError.generic ("error checking for existing volume " ++ name ++ "; " ++ e)),
        [], cloneVolConfig⟩
  | none =>
  match env.extantVolume with
  | some extant =>
      if extant.provisioningState = ProvisioningState.creating then
        ⟨some (DriverError.volumeCreating volumeCreatingMsg), [], cloneVolConfig⟩
      else
        ⟨some (DriverError.volumeExists name), [], cloneVolConfig⟩
  | none =>
  match resolveCloneSourceSnapshot env sourceVolume snapshot with
  | (Except.error e, snapCalls) => ⟨some (DriverError.generic e), snapCalls, cloneVolConfig⟩
  | (Except.ok sourceSnapshot, snapCalls) =>
  if cloneVolConfig.readOnlyClone then
    if !sourceVolume.snapshotDirectory then
      ⟨some (DriverError.generic
        "snapshot directory access is set to false and readOnly clone is set to true "),
        snapCalls, cloneVolConfig⟩
    else
      ⟨none, snapCalls, cloneVolConfig⟩
  else
  let labels := setLabel sourceVolume.labels TridentLabelTag env.telemetryLabel
  match (if storagePoolUnset then
           env.poolLabels.map (fun pl => setLabel labels ProvisioningLabelTag pl)
         else
           Except.ok labels) with
  | Except.error e => ⟨some (DriverError.generic e), snapCalls, cloneVolConfig⟩
  | Except.ok finalLabels =>
  let createRequestBase : FilesystemCreateRequest :=
    { resourceGroup := sourceVolume.resourceGroup
      netAppAccount := sourceVolume.netAppAccount
      capacityPool := sourceVolume.capacityPool
      name := cloneVolConfig.name
      subnetID := sourceVolume.subnetID
      creationToken := name
      labels := finalLabels
      protocolTypes := sourceVolume.protocolTypes
      quotaInBytes := sourceVolume.quotaInBytes
      snapshotDirectory := sourceVolume.snapshotDirectory
      networkFeatures := sourceVolume.networkFeatures
      kerberosEnabled := false
      unixPermissions := ""
      exportPolicy := { rules := [] }
      snapshotID := sourceSnapshot.snapshotID }
  let createRequest :=
    if config.nasType = NASTypeNFS then
      { createRequestBase with exportPolicy := sourceVolume.exportPolicy,
                               unixPermissions := sourceVolume.unixPermissions,
                               kerberosEnabled := sourceVolume.kerberosEnabled }
    else
      createRequestBase
  match env.createVolume createRequest with
  | Except.error e =>
      ⟨some (DriverError.generic e),
        snapCalls ++ [BackendCall.createVolume createRequest], cloneVolConfig⟩
  | Except.ok clone =>
      let volConfigWithID := { cloneVolConfig with internalID := clone.id }
      let waitResult := waitForVolumeCreate env.wait clone
      ⟨waitResult.1, snapCalls ++ [BackendCall.createVolume createRequest] ++ waitResult.2,
        volConfigWithID⟩

/-- Projection of the create requests out of a backend-call trace. -/
def createRequestsOf (calls : List BackendCall) : List FilesystemCreateRequest :=
  calls.filterMap (fun call => match call with
    | BackendCall.createVolume r => some r
    | _ => none)

/-- Extraction of the message of a failed create result (the loop only reads
it on failed candidates). -/
def errOf (r : Except String FileSystem) : String :=
  match r with
  | Except.error e => e
  | Except.ok _ => ""

/-- A second formulation of the List filtering, following the words of the
specification: strip the storage prefix from the creation token of each
volume whose token starts with the prefix, excluding every volume whose
provisioning state is Deleting, Deleted or Error and keeping all others. -/
def listVolumeNamesSpec (storagePfx : String) (volumes : List FileSystem) : List String :=
  (volumes.filter (fun v =>
      decide (v.provisioningState ∉
        [ProvisioningState.deleting, ProvisioningState.deleted, ProvisioningState.error]) &&
      hasPfx v.creationToken storagePfx)).map
    (fun v => dropPfx v.creationToken storagePfx)

/-- Concrete fixture: a storage pool with the default 100-GiB size and no
kerberos mode. -/
def fixPool : PoolInternalAttributes :=
  { size := 107374182400, serviceLevel := "Ultra", snapshotDir := "false",
    unixPermissions := "", exportRule := "0.0.0.0/0", networkFeatures := "", kerberos := "" }

/-- Concrete fixture: the same pool with the krb5 kerberos flavor. -/
def fixKerbPool : PoolInternalAttributes :=
  { fixPool with kerberos := MountOptionKerberos5 }

/-- Concrete fixture: an NFS backend configuration with NFSv3 mount options
and no volume size limit. -/
def fixConfig : DriverConfig :=
  { nasType := NASTypeNFS, nfsMountOptions := { raw := "nfsvers=3", nfsVersion := some "3" },
    limitVolumeSize := none, storagePfx := "trident-", subscriptionID := "sub-1" }

/-- Concrete fixture: a well-formed volume configuration with no per-volume
overrides. -/
def fixVolConfig : VolumeConfig :=
  { name := "pvc-test", internalName := "trident-pvc-test", internalID := "", size := 0,
    serviceLevel := "", snapshotDir := "", unixPermissions := "",
    mountOptions := { raw := "", nfsVersion := none }, readOnlyClone := false,
    cloneSourceVolumeInternal := "", cloneSourceSnapshot := "", cloneSourceSnapshotInternal := "" }

/-- Concrete fixture: an available backend volume. -/
def fixVolume : FileSystem :=
  { id := "id1", name := "pvc-test", creationToken := "trident-pvc-test",
    provisioningState := ProvisioningState.available, quotaInBytes := 107374182400,
    snapshotDirectory := false, kerberosEnabled := false, resourceGroup := "rg",
    netAppAccount := "acct", capacityPool := "cp1", subnetID := "subnet-1",
    unixPermissions := "", networkFeatures := "", protocolTypes := [ProtocolTypeNFSv41],
    exportPolicy := { rules := [] }, labels := [] }

/-- Concrete fixture: a subnet. -/
def fixSubnet : Subnet := { id := "subnet-1" }

/-- Concrete fixture: one capacity-pool candidate. -/
def fixCPool1 : CapacityPool := { resourceGroup := "rg", netAppAccount := "acct", name := "cp1" }

/-- Concrete fixture: a second capacity-pool candidate. -/
def fixCPool2 : CapacityPool := { resourceGroup := "rg", netAppAccount := "acct", name := "cp2" }

/-- Concrete fixture: a wait environment in which the volume reaches
Available. -/
def fixWait : WaitCreateEnv :=
  { finalState := ProvisioningState.available, waitErr := none,
    cleanupWaitDeletedErr := none, cleanupDeleteErr := none }

/-- Concrete fixture: a create environment in which every collaborator call
succeeds, the volume does not yet exist, and one capacity-pool candidate is
available. -/
def fixEnv : SdkCreateEnv :=
  { refreshErr := none, acpInflightEncryptionErr := none, volumeExistsErr := none,
    extantVolume := none, hasFeatureUnixPermissions := false, telemetryLabel := "telemetry",
    poolLabels := Except.ok "plabels", subnet := some fixSubnet, capacityPools := [fixCPool1],
    createVolume := fun _ => Except.ok fixVolume, wait := fixWait }

/-- Concrete fixture for the duplicate-create scenario: the volume already
exists and is still Creating. -/
def c1CreatingEnv : SdkCreateEnv :=
  { fixEnv with
      extantVolume := some { fixVolume with provisioningState := ProvisioningState.creating } }

/-- Concrete fixture for the duplicate-create scenario: the volume already
exists in a stable (Available) state. -/
def c1AvailableEnv : SdkCreateEnv :=
  { fixEnv with extantVolume := some fixVolume }

/-- Concrete fixture for placement: two candidates, every create attempt
failing. -/
def c2FailEnv : SdkCreateEnv :=
  { fixEnv with capacityPools := [fixCPool1, fixCPool2],
                createVolume := fun _ => Except.error "boom" }

/-- Concrete fixture for placement: two candidates, every create attempt
succeeding (so the first candidate short-circuits). -/
def c2OkEnv : SdkCreateEnv :=
  { fixEnv with capacityPools := [fixCPool1, fixCPool2] }

/-- Concrete fixture for the cleanup-on-error scenario: the wait toward
Available fails with the volume in the terminal Error state, and the
best-effort cleanup delete itself fails. -/
def c3Env : WaitCreateEnv :=
  { finalState := ProvisioningState.error, waitErr := some "volume creation failed",
    cleanupWaitDeletedErr := none, cleanupDeleteErr := some "delete failed" }

/-- Concrete fixture for the 50-GiB scenario: an NFS backend whose mount
options select NFS 4.1. -/
def c4Config : DriverConfig :=
  { fixConfig with nfsMountOptions := { raw := "nfsvers=4.1", nfsVersion := some "4.1" } }

/-- Concrete fixture for the 50-GiB scenario: a volume configuration
requesting 50 GiB (53687091200 bytes). -/
def c4VolConfig : VolumeConfig := { fixVolConfig with size := 53687091200 }

/-- An all-zero create request, used only as the default of a list
projection. -/
def emptyCreateRequest : FilesystemCreateRequest :=
  { resourceGroup := "", netAppAccount := "", capacityPool := "", name := "", subnetID := "",
    creationToken := "", labels := [], protocolTypes := [], quotaInBytes := 0,
    snapshotDirectory := false, networkFeatures := "", kerberosEnabled := false,
    unixPermissions := "", exportPolicy := { rules := [] }, snapshotID := "" }

/-- Concrete fixture: the single create request issued by Create on the
krb5 kerberos pool. -/
def c5WitnessReq : FilesystemCreateRequest :=
  (createRequestsOf
    (create fixConfig [("pool1", fixKerbPool)] (some "pool1") fixVolConfig fixEnv).calls).getD
    0 emptyCreateRequest

/-- Concrete fixture for Resize: the backend volume is found and
Available. -/
def c6Env : ResizeEnv :=
  { refreshErr := none, volumeResult := Except.ok fixVolume, resizeErr := none }

/-- Concrete fixture for Destroy: first call; the volume exists and is
Available, the delete succeeds, but the wait for the Deleted state times
out. -/
def c7EnvFirst : DestroyEnv :=
  { refreshErr := none, volumeExistsErr := none, extantVolume := some fixVolume,
    waitDeletingBranchErr := none, deleteErr := none,
    waitDeletedErr := some "wait for volume state timed out" }

/-- Concrete fixture for Destroy: second call; the volume is now mid-delete
(Deleting) and the wait for the Deleted state times out again. -/
def c7EnvSecond : DestroyEnv :=
  { refreshErr := none, volumeExistsErr := none,
    extantVolume := some { fixVolume with provisioningState := ProvisioningState.deleting },
    waitDeletingBranchErr := some "wait for volume state timed out", deleteErr := none,
    waitDeletedErr := none }

/-- Concrete fixture for Destroy: the volume does not exist. -/
def c7EnvNone : DestroyEnv :=
  { refreshErr := none, volumeExistsErr := none, extantVolume := none,
    waitDeletingBranchErr := none, deleteErr := none, waitDeletedErr := none }

/-- Concrete fixture for CreateClone: the clone source volume, with
snapshot-directory access enabled. -/
def c8SourceVolume : FileSystem :=
  { fixVolume with id := "id-src", creationToken := "src-vol", snapshotDirectory := true }

/-- Concrete fixture for CreateClone: a read-only clone configuration
naming an explicit source snapshot. -/
def roCloneVolConfig : VolumeConfig :=
  { fixVolConfig with readOnlyClone := true, cloneSourceVolumeInternal := "src-vol",
                      cloneSourceSnapshot := "snap1", cloneSourceSnapshotInternal := "snap1-int" }

/-- Concrete fixture for CreateClone: the named source snapshot, already
Available. -/
def c8Snapshot : Snapshot :=
  { name := "snap1-int", snapshotID := "sid-1", provisioningState := ProvisioningState.available }

/-- Concrete fixture for CreateClone: every collaborator call succeeds and
the named source snapshot is found Available. -/
def c8CloneEnv : CloneEnv :=
  { refreshErr := none, sourceVolumeResult := Except.ok c8SourceVolume,
    acpInflightEncryptionErr := none, volumeExistsByIDErr := none, extantVolume := none,
    snapshotForVolumeResult := Except.ok c8Snapshot, nowSnapName := "snap-ts",
    createSnapshotResult := Except.error "unused", waitSnapshotErr := none,
    refetchSnapshotResult := Except.error "unused", poolLabels := Except.ok "plabels",
    telemetryLabel := "telemetry", createVolume := fun _ => Except.ok fixVolume,
    wait := fixWait }

/-- Concrete fixture for List: volumes in assorted states, with and without
the storage prefix. -/
def c9Volumes : List FileSystem :=
  [ { fixVolume with creationToken := "trident-a", provisioningState := ProvisioningState.available },
    { fixVolume with creationToken := "trident-b", provisioningState := ProvisioningState.creating },
    { fixVolume with creationToken := "trident-c", provisioningState := ProvisioningState.deleting },
    { fixVolume with creationToken := "trident-d", provisioningState := ProvisioningState.deleted },
    { fixVolume with creationToken := "trident-e", provisioningState := ProvisioningState.error },
    { fixVolume with creationToken := "other-f", provisioningState := ProvisioningState.available } ]

/-- Concrete fixture for List: the volume listing succeeds. -/
def c9Env : ListEnv := { refreshErr := none, volumesResult := Except.ok c9Volumes }

/-- Concrete fixture: the single create request issued by Create on the
plain NFS pool with NFSv3 mount options. -/
def c10WitnessReq : FilesystemCreateRequest :=
  (createRequestsOf
    (create fixConfig [("pool1", fixPool)] (some "pool1") fixVolConfig fixEnv).calls).getD
    0 emptyCreateRequest

/-- Placement loop: a first success after a run of failures short-circuits
with the created volume, having issued exactly one create call per
candidate tried, in listed order. -/
theorem tryCapacityPools_first_success
    (cv : FilesystemCreateRequest → Except String FileSystem)
    (mk : CapacityPool → FilesystemCreateRequest) (name : String)
    (pre post : List CapacityPool) (c : CapacityPool) (v : FileSystem)
    (hpre : ∀ p ∈ pre, ∃ e, cv (mk p) = Except.error e)
    (hc : cv (mk c) = Except.ok v) :
    tryCapacityPools cv mk name (pre ++ c :: post) =
      (Except.ok v, (pre ++ [c]).map (fun p => BackendCall.createVolume (mk p))) := by
  induction pre with
  | nil => simp [tryCapacityPools, hc]
  | cons p rest ih =>
      obtain ⟨e, he⟩ := hpre p (by simp)
      have hrest : ∀ q ∈ rest, ∃ e, cv (mk q) = Except.error e :=
        fun q hq => hpre q (by simp [hq])
      simp [tryCapacityPools, he, ih hrest]

/-- Placement loop: when every candidate fails, the loop returns the
failure message of every candidate, in listed order, having issued one
create call per candidate. -/
theorem tryCapacityPools_all_fail
    (cv : FilesystemCreateRequest → Except String FileSystem)
    (mk : CapacityPool → FilesystemCreateRequest) (name : String)
    (cPools : List CapacityPool)
    (hall : ∀ p ∈ cPools, ∃ e, cv (mk p) = Except.error e) :
    tryCapacityPools cv mk name cPools =
      (Except.error (cPools.map (fun p => createErrMessage p name (errOf (cv (mk p))))),
       cPools.map (fun p => BackendCall.createVolume (mk p))) := by
  induction cPools with
  | nil => simp [tryCapacityPools]
  | cons p rest ih =>
      obtain ⟨e, he⟩ := hall p (by simp)
      have hrest := ih (fun q hq => hall q (by simp [hq]))
      simp [tryCapacityPools, he, hrest, errOf]

/-- Placement loop: every call it issues is the create call of one of the
candidates. -/
theorem tryCapacityPools_calls_shape
    (cv : FilesystemCreateRequest → Except String FileSystem)
    (mk : CapacityPool → FilesystemCreateRequest) (name : String)
    (cPools : List CapacityPool) :
    ∀ call ∈ (tryCapacityPools cv mk name cPools).2,
      ∃ p ∈ cPools, call = BackendCall.createVolume (mk p) := by
  induction cPools with
  | nil => simp [tryCapacityPools]
  | cons p rest ih =>
      intro call hcall
      rw [tryCapacityPools] at hcall
      rcases hr : cv (mk p) with e | v <;> rw [hr] at hcall <;> simp at hcall
      · rcases hcall with hcall | hcall
        · exact ⟨p, by simp, hcall⟩
        · obtain ⟨q, hq, hcq⟩ := ih call hcall
          exact ⟨q, by simp [hq], hcq⟩
      · exact ⟨p, by simp, hcall⟩

/-- The state waiter issues no volume create call. -/
theorem waitForVolumeCreate_no_create (w : WaitCreateEnv) (vol : FileSystem)
    (req : FilesystemCreateRequest) :
    BackendCall.createVolume req ∉ (waitForVolumeCreate w vol).2 := by
  unfold waitForVolumeCreate
  rcases hw : w.waitErr with _ | e
  · simp
  · cases hf : w.finalState <;> simp

/-- Every create request in the trace of the placement tail was built by
the request builder for one of the candidates. -/
theorem createPlacementTail_createVolume_mem
    (spName : String) (env : SdkCreateEnv) (rq : CapacityPool → FilesystemCreateRequest)
    (name : String) (vcU : VolumeConfig) (req : FilesystemCreateRequest)
    (hmem : BackendCall.createVolume req ∈ (createPlacementTail spName env rq name vcU).calls) :
    ∃ p ∈ env.capacityPools, req = rq p := by
  unfold createPlacementTail at hmem
  by_cases he : env.capacityPools.isEmpty
  · simp [he] at hmem
  · simp only [he, if_false, Bool.false_eq_true] at hmem
    split at hmem
    · simp only [CreateOutcome.mk.injEq] at hmem
      obtain ⟨p, hp, hcall⟩ := tryCapacityPools_calls_shape env.createVolume rq name
        env.capacityPools _ hmem
      exact ⟨p, hp, by injection hcall⟩
    · simp only [List.mem_append] at hmem
      rcases hmem with hmem | hmem
      · obtain ⟨p, hp, hcall⟩ := tryCapacityPools_calls_shape env.createVolume rq name
          env.capacityPools _ hmem
        exact ⟨p, hp, by injection hcall⟩
      · exact absurd hmem (waitForVolumeCreate_no_create env.wait _ req)

/-- Under the preconditions that take Create past its existence check and
attribute resolution, Create reduces to the placement tail: the loop over
the capacity-pool candidates with the resolved request builder, followed by
the wait step. -/
theorem create_eq_placementTail
    (config : DriverConfig) (pools : List (String × PoolInternalAttributes)) (spName : String)
    (volConfig : VolumeConfig) (env : SdkCreateEnv) (pool : PoolInternalAttributes)
    (sdb kEnabled : Bool) (protoInfo : List String × ExportPolicy) (plJSON : String)
    (subnet : Subnet)
    (h1 : env.refreshErr = none)
    (h2 : volumeNameMatches volConfig.name = true)
    (h3 : creationTokenMatches volConfig.internalName = true)
    (h4 : pools.lookup spName = some pool)
    (h5 : pool.kerberos = "" ∨ env.acpInflightEncryptionErr = none)
    (h6 : env.volumeExistsErr = none)
    (h7 : env.extantVolume = none)
    (h8 : CheckMinVolumeSize (resolveSizeBytes volConfig.size pool.size) MinimumVolumeSizeBytes = none)
    (h9 : CheckVolumeSizeLimits (raiseToANFMinimum (resolveSizeBytes volConfig.size pool.size))
            config.limitVolumeSize = none)
    (h10 : parseBool (if volConfig.snapshotDir = "" then pool.snapshotDir else volConfig.snapshotDir)
             = Except.ok sdb)
    (h11 : kerberosEnabledFor pool.kerberos = Except.ok kEnabled)
    (h12 : resolveProtocolInfo config.nasType
             (if volConfig.mountOptions.raw ≠ "" then volConfig.mountOptions else config.nfsMountOptions)
             pool.exportRule pool.kerberos kEnabled = Except.ok protoInfo)
    (h13 : env.poolLabels = Except.ok plJSON)
    (h14 : env.subnet = some subnet) :
    create config pools (some spName) volConfig env =
      createPlacementTail spName env
        (fun cPool =>
          mkCreateRequest config.nasType cPool volConfig.name subnet.id volConfig.internalName
            [(TridentLabelTag, env.telemetryLabel), (ProvisioningLabelTag, plJSON)]
            protoInfo.1 (raiseToANFMinimum (resolveSizeBytes volConfig.size pool.size)) sdb
            pool.networkFeatures kEnabled
            (if (if volConfig.unixPermissions = "" then pool.unixPermissions
                 else volConfig.unixPermissions) = "" ∧ env.hasFeatureUnixPermissions then "0777"
             else (if volConfig.unixPermissions = "" then pool.unixPermissions
                   else volConfig.unixPermissions))
            protoInfo.2)
        volConfig.internalName
        { volConfig with
            size := raiseToANFMinimum (resolveSizeBytes volConfig.size pool.size),
            serviceLevel := if Title volConfig.serviceLevel = "" then pool.serviceLevel
                            else Title volConfig.serviceLevel,
            snapshotDir := if volConfig.snapshotDir = "" then pool.snapshotDir
                           else volConfig.snapshotDir,
            unixPermissions :=
              if (if volConfig.unixPermissions = "" then pool.unixPermissions
                  else volConfig.unixPermissions) = "" ∧ env.hasFeatureUnixPermissions then "0777"
              else (if volConfig.unixPermissions = "" then pool.unixPermissions
                    else volConfig.unixPermissions) } := by
  have h12x : resolveProtocolInfo config.nasType
      (if volConfig.mountOptions.raw = "" then config.nfsMountOptions else volConfig.mountOptions)
      pool.exportRule pool.kerberos kEnabled = Except.ok protoInfo := by
    simpa [ite_not] using h12
  rcases h5 with h5 | h5
  · rw [h5] at h11 h12x
    simp [create, h1, h2, h3, h4, h5, h6, h7, h8, h9, h10, h11, h12x, h13, h14]
  · simp [create, h1, h2, h3, h4, h5, h6, h7, h8, h9, h10, h11, h12x, h13, h14]

/-- C1: for every Create call whose existence check finds a volume with the
requested creation token, a duplicate still in the Creating provisioning
state yields the retryable VolumeCreatingError and any other state yields
the hard VolumeExistsError; in both cases no backend call at all (in
particular no create call) is issued. -/
theorem anf_c1
    (config : DriverConfig) (pools : List (String × PoolInternalAttributes))
    (spName : String) (volConfig : VolumeConfig) (env : SdkCreateEnv)
    (pool : PoolInternalAttributes) (extant : FileSystem)
    (h1 : env.refreshErr = none)
    (h2 : volumeNameMatches volConfig.name = true)
    (h3 : creationTokenMatches volConfig.internalName = true)
    (h4 : pools.lookup spName = some pool)
    (h5 : pool.kerberos = "" ∨ env.acpInflightEncryptionErr = none)
    (h6 : env.volumeExistsErr = none)
    (h7 : env.extantVolume = some extant) :
    (extant.provisioningState = ProvisioningState.creating →
       create config pools (some spName) volConfig env =
         ⟨some (DriverError.volumeCreating volumeCreatingMsg), [], volConfig⟩) ∧
    (extant.provisioningState ≠ ProvisioningState.creating →
       create config pools (some spName) volConfig env =
         ⟨some (DriverError.volumeExists volConfig.internalName), [], volConfig⟩) := by
  rcases h5 with h5 | h5 <;>
  constructor <;> intro hst <;>
    simp [create, h1, h2, h3, h4, h5, h6, h7, hst]

/-- Witness for C1 at concrete inputs: a Creating duplicate returns the
retryable error, an Available duplicate the hard error, both with an empty
backend-call trace. -/
theorem anf_c1_witness :
    (create fixConfig [("pool1", fixPool)] (some "pool1") fixVolConfig c1CreatingEnv =
      ⟨some (DriverError.volumeCreating volumeCreatingMsg), [], fixVolConfig⟩) ∧
    (create fixConfig [("pool1", fixPool)] (some "pool1") fixVolConfig c1AvailableEnv =
      ⟨some (DriverError.volumeExists "trident-pvc-test"), [], fixVolConfig⟩) :=
  ⟨(anf_c1 fixConfig [("pool1", fixPool)] "pool1" fixVolConfig c1CreatingEnv fixPool
      { fixVolume with provisioningState := ProvisioningState.creating }
      rfl (by decide) (by decide) (by decide) (Or.inl rfl) rfl rfl).1 rfl,
   (anf_c1 fixConfig [("pool1", fixPool)] "pool1" fixVolConfig c1AvailableEnv fixPool
      fixVolume rfl (by decide) (by decide) (by decide) (Or.inl rfl) rfl rfl).2 (by decide)⟩

/-- C2: when Create reaches placement with a non-empty candidate list, it
attempts the backend create call candidate by candidate in listed order;
the first success short-circuits and proceeds to the wait step, and if
every candidate fails the returned error combines the
individual failure message of each candidate, one create call having been issued per
candidate tried. -/
theorem anf_c2
    (config : DriverConfig) (pools : List (String × PoolInternalAttributes)) (spName : String)
    (volConfig : VolumeConfig) (env : SdkCreateEnv) (pool : PoolInternalAttributes)
    (sdb kEnabled : Bool) (protoInfo : List String × ExportPolicy) (plJSON : String)
    (subnet : Subnet)
    (h1 : env.refreshErr = none)
    (h2 : volumeNameMatches volConfig.name = true)
    (h3 : creationTokenMatches volConfig.internalName = true)
    (h4 : pools.lookup spName = some pool)
    (h5 : pool.kerberos = "" ∨ env.acpInflightEncryptionErr = none)
    (h6 : env.volumeExistsErr = none)
    (h7 : env.extantVolume = none)
    (h8 : CheckMinVolumeSize (resolveSizeBytes volConfig.size pool.size) MinimumVolumeSizeBytes = none)
    (h9 : CheckVolumeSizeLimits (raiseToANFMinimum (resolveSizeBytes volConfig.size pool.size))
            config.limitVolumeSize = none)
    (h10 : parseBool (if volConfig.snapshotDir = "" then pool.snapshotDir else volConfig.snapshotDir)
             = Except.ok sdb)
    (h11 : kerberosEnabledFor pool.kerberos = Except.ok kEnabled)
    (h12 : resolveProtocolInfo config.nasType
             (if volConfig.mountOptions.raw ≠ "" then volConfig.mountOptions else config.nfsMountOptions)
             pool.exportRule pool.kerberos kEnabled = Except.ok protoInfo)
    (h13 : env.poolLabels = Except.ok plJSON)
    (h14 : env.subnet = some subnet)
    (hne : env.capacityPools ≠ []) :
    ∀ rq, rq = (fun cPool =>
        mkCreateRequest config.nasType cPool volConfig.name subnet.id volConfig.internalName
          [(TridentLabelTag, env.telemetryLabel), (ProvisioningLabelTag, plJSON)]
          protoInfo.1 (raiseToANFMinimum (resolveSizeBytes volConfig.size pool.size)) sdb
          pool.networkFeatures kEnabled
          (if (if volConfig.unixPermissions = "" then pool.unixPermissions
               else volConfig.unixPermissions) = "" ∧ env.hasFeatureUnixPermissions then "0777"
           else (if volConfig.unixPermissions = "" then pool.unixPermissions
                 else volConfig.unixPermissions))
          protoInfo.2) →
      ((∀ pre c post v, env.capacityPools = pre ++ c :: post →
          (∀ p ∈ pre, ∃ e, env.createVolume (rq p) = Except.error e) →
          env.createVolume (rq c) = Except.ok v →
          (create config pools (some spName) volConfig env).result
              = (waitForVolumeCreate env.wait v).1 ∧
          (create config pools (some spName) volConfig env).calls
              = (pre ++ [c]).map (fun p => BackendCall.createVolume (rq p))
                  ++ (waitForVolumeCreate env.wait v).2) ∧
       ((∀ p ∈ env.capacityPools, ∃ e, env.createVolume (rq p) = Except.error e) →
          (create config pools (some spName) volConfig env).result
              = some (DriverError.combined (env.capacityPools.map
                  (fun p => createErrMessage p volConfig.internalName
                    (errOf (env.createVolume (rq p)))))) ∧
          (create config pools (some spName) volConfig env).calls
              = env.capacityPools.map (fun p => BackendCall.createVolume (rq p)))) := by
  intro rq hrq
  have hu := create_eq_placementTail config pools spName volConfig env pool sdb kEnabled
    protoInfo plJSON subnet h1 h2 h3 h4 h5 h6 h7 h8 h9 h10 h11 h12 h13 h14
  rw [← hrq] at hu
  constructor
  · intro pre c post v hsplit hpre hc
    have hloop := tryCapacityPools_first_success env.createVolume rq volConfig.internalName
      pre post c v hpre hc
    rw [hu, createPlacementTail, hsplit, hloop]
    simp
  · intro hall
    have hloop := tryCapacityPools_all_fail env.createVolume rq volConfig.internalName
      env.capacityPools hall
    rw [hu, createPlacementTail, hloop]
    simp [hne]

/-- Witness for C2 at concrete inputs: with two candidates and every
attempt failing, Create returns the combined per-candidate error; with the
first candidate succeeding, Create succeeds (the wait step returning
nil). -/
theorem anf_c2_witness :
    (create fixConfig [("pool1", fixPool)] (some "pool1") fixVolConfig c2FailEnv).result =
      some (DriverError.combined
        ["ANF pool cp1; error creating volume trident-pvc-test: boom",
         "ANF pool cp2; error creating volume trident-pvc-test: boom"]) ∧
    (create fixConfig [("pool1", fixPool)] (some "pool1") fixVolConfig c2OkEnv).result = none := by
  constructor
  · have h := (anf_c2 fixConfig [("pool1", fixPool)] "pool1" fixVolConfig c2FailEnv fixPool
      false false ([ProtocolTypeNFSv3], { rules := [baseNfsExportRule "0.0.0.0/0" true false] })
      "plabels" fixSubnet rfl (by decide) (by decide) (by decide) (Or.inl rfl) rfl rfl
      rfl rfl rfl rfl rfl rfl rfl (by decide)) _ rfl
    exact (h.2 (fun p hp => ⟨"boom", rfl⟩)).1.trans (by decide)
  · have h := (anf_c2 fixConfig [("pool1", fixPool)] "pool1" fixVolConfig c2OkEnv fixPool
      false false ([ProtocolTypeNFSv3], { rules := [baseNfsExportRule "0.0.0.0/0" true false] })
      "plabels" fixSubnet rfl (by decide) (by decide) (by decide) (Or.inl rfl) rfl rfl
      rfl rfl rfl rfl rfl rfl rfl (by decide)) _ rfl
    exact ((h.1 [] fixCPool1 [fixCPool2] fixVolume rfl (by simp) rfl).1).trans rfl

/-- C3: when the wait after a create submission ends with the volume in the
terminal Error state, the driver issues a cleanup delete of the failed
volume, and the outcome is independent of whether that cleanup delete
fails (a failure is only logged); in this branch the returned error is nil,
so the cleanup failure is never substituted for the original triggering
error. -/
theorem anf_c3 (env : WaitCreateEnv) (volume : FileSystem) (e : String)
    (hstate : env.finalState = ProvisioningState.error)
    (herr : env.waitErr = some e) :
    BackendCall.deleteVolume volume.id ∈ (waitForVolumeCreate env volume).2 ∧
    (∀ cleanupErr, waitForVolumeCreate { env with cleanupDeleteErr := cleanupErr } volume
        = waitForVolumeCreate env volume) ∧
    (waitForVolumeCreate env volume).1 = none := by
  refine ⟨?_, ?_, ?_⟩ <;> simp [waitForVolumeCreate, herr, hstate]

/-- Witness for C3 at concrete inputs: the wait fails in the Error state
with a failing cleanup delete; the delete call is issued, the outcome
ignores the cleanup failure, and the cleanup error is not returned. -/
theorem anf_c3_witness :
    BackendCall.deleteVolume "id1" ∈ (waitForVolumeCreate c3Env fixVolume).2 ∧
    (∀ cleanupErr, waitForVolumeCreate { c3Env with cleanupDeleteErr := cleanupErr } fixVolume
        = waitForVolumeCreate c3Env fixVolume) ∧
    (waitForVolumeCreate c3Env fixVolume).1 = none :=
  anf_c3 c3Env fixVolume "volume creation failed" rfl rfl

/-- C4: a Create request for 50 GiB (53687091200 bytes) on an NFS pool with
the 100-GiB protocol floor, with mount options selecting NFS 4.1 and no
kerberos mode, is not rejected: the single create request submitted to the
backend carries a quota of exactly 107374182400 bytes, protocol type
NFS 4.1, and no kerberos flags (neither the request flag nor any
export-rule kerberos read-write flag). -/
theorem anf_c4 :
    (create c4Config [("pool1", fixPool)] (some "pool1") c4VolConfig fixEnv).result = none ∧
    (createRequestsOf
        (create c4Config [("pool1", fixPool)] (some "pool1") c4VolConfig fixEnv).calls).map
      (fun r => (r.quotaInBytes, r.protocolTypes, r.kerberosEnabled,
        r.exportPolicy.rules.map (fun rule =>
          (rule.kerberos5ReadWrite, rule.kerberos5IReadWrite, rule.kerberos5PReadWrite))))
      = [(107374182400, [ProtocolTypeNFSv41], false, [(false, false, false)])] := by
  constructor <;> rfl

/-- C5: whenever Create on an NFS backend runs with a pool whose kerberos
attribute is one of the three flavors, every create request it submits
carries protocol type NFS 4.1 and a single export rule whose generic unix
read-only and read-write flags are cleared and in which exactly the
kerberos read-write flag of the configured flavor is set. -/
theorem anf_c5
    (config : DriverConfig) (pools : List (String × PoolInternalAttributes)) (spName : String)
    (volConfig : VolumeConfig) (env : SdkCreateEnv) (pool : PoolInternalAttributes)
    (sdb kEnabled : Bool) (protoInfo : List String × ExportPolicy) (plJSON : String)
    (subnet : Subnet)
    (h1 : env.refreshErr = none)
    (h2 : volumeNameMatches volConfig.name = true)
    (h3 : creationTokenMatches volConfig.internalName = true)
    (h4 : pools.lookup spName = some pool)
    (h5 : pool.kerberos = "" ∨ env.acpInflightEncryptionErr = none)
    (h6 : env.volumeExistsErr = none)
    (h7 : env.extantVolume = none)
    (h8 : CheckMinVolumeSize (resolveSizeBytes volConfig.size pool.size) MinimumVolumeSizeBytes = none)
    (h9 : CheckVolumeSizeLimits (raiseToANFMinimum (resolveSizeBytes volConfig.size pool.size))
            config.limitVolumeSize = none)
    (h10 : parseBool (if volConfig.snapshotDir = "" then pool.snapshotDir else volConfig.snapshotDir)
             = Except.ok sdb)
    (h11 : kerberosEnabledFor pool.kerberos = Except.ok kEnabled)
    (h12 : resolveProtocolInfo config.nasType
             (if volConfig.mountOptions.raw ≠ "" then volConfig.mountOptions else config.nfsMountOptions)
             pool.exportRule pool.kerberos kEnabled = Except.ok protoInfo)
    (h13 : env.poolLabels = Except.ok plJSON)
    (h14 : env.subnet = some subnet)
    (hnas : config.nasType = NASTypeNFS)
    (hker : pool.kerberos = MountOptionKerberos5 ∨ pool.kerberos = MountOptionKerberos5I ∨
            pool.kerberos = MountOptionKerberos5P) :
    ∀ req, BackendCall.createVolume req ∈ (create config pools (some spName) volConfig env).calls →
      req.protocolTypes = [ProtocolTypeNFSv41] ∧
      ∃ rule, req.exportPolicy.rules = [rule] ∧
        rule.unixReadOnly = false ∧
        rule.unixReadWrite = false ∧
        (pool.kerberos = MountOptionKerberos5 →
          (rule.kerberos5ReadWrite, rule.kerberos5IReadWrite, rule.kerberos5PReadWrite)
            = (true, false, false)) ∧
        (pool.kerberos = MountOptionKerberos5I →
          (rule.kerberos5ReadWrite, rule.kerberos5IReadWrite, rule.kerberos5PReadWrite)
            = (false, true, false)) ∧
        (pool.kerberos = MountOptionKerberos5P →
          (rule.kerberos5ReadWrite, rule.kerberos5IReadWrite, rule.kerberos5PReadWrite)
            = (false, false, true)) := by
  intro req hreq
  have hkE : kEnabled = true := by
    rcases hker with hk | hk | hk <;> rw [hk] at h11 <;>
      simpa [kerberosEnabledFor] using h11.symm
  have hu := create_eq_placementTail config pools spName volConfig env pool sdb kEnabled
    protoInfo plJSON subnet h1 h2 h3 h4 h5 h6 h7 h8 h9 h10 h11 h12 h13 h14
  rw [hu] at hreq
  obtain ⟨p, hp, hreqeq⟩ := createPlacementTail_createVolume_mem _ _ _ _ _ _ hreq
  subst hreqeq
  rw [resolveProtocolInfo, hnas] at h12
  have hsmb : ¬ (NASTypeNFS = NASTypeSMB) := by simp [NASTypeNFS, NASTypeSMB]
  rw [if_neg hsmb] at h12
  rcases hgv : GetNFSVersionFromMountOptions
      (if volConfig.mountOptions.raw ≠ "" then volConfig.mountOptions else config.nfsMountOptions)
      nfsVersion3 supportedNFSVersions with e | nv
  · rw [hgv] at h12
    simp at h12
  · rw [hgv] at h12
    rw [hkE] at h12
    simp only [if_true, Except.ok.injEq] at h12
    have hpi1 : protoInfo.1 = [ProtocolTypeNFSv41] := by rw [← h12]
    have hpi2 : protoInfo.2 = { rules := [applyKerberosToExportRule pool.kerberos
        (baseNfsExportRule pool.exportRule (nfsAccessFlags nv).1 (nfsAccessFlags nv).2)] } := by
      rw [← h12]
    refine ⟨?_, applyKerberosToExportRule pool.kerberos
      (baseNfsExportRule pool.exportRule (nfsAccessFlags nv).1 (nfsAccessFlags nv).2),
      ?_, ?_, ?_, ?_, ?_, ?_⟩
    · simp [mkCreateRequest, hnas, hpi1]
    · simp [mkCreateRequest, hnas, hpi2]
    · rcases hker with hk | hk | hk <;>
        simp [applyKerberosToExportRule, baseNfsExportRule, hk,
          MountOptionKerberos5, MountOptionKerberos5I, MountOptionKerberos5P]
    · rcases hker with hk | hk | hk <;>
        simp [applyKerberosToExportRule, baseNfsExportRule, hk,
          MountOptionKerberos5, MountOptionKerberos5I, MountOptionKerberos5P]
    · intro hk
      simp [applyKerberosToExportRule, baseNfsExportRule, hk,
        MountOptionKerberos5, MountOptionKerberos5I, MountOptionKerberos5P]
    · intro hk
      simp [applyKerberosToExportRule, baseNfsExportRule, hk,
        MountOptionKerberos5, MountOptionKerberos5I, MountOptionKerberos5P]
    · intro hk
      simp [applyKerberosToExportRule, baseNfsExportRule, hk,
        MountOptionKerberos5, MountOptionKerberos5I, MountOptionKerberos5P]

/-- Witness for C5 at concrete inputs: the request issued on the krb5 pool
has protocol NFS 4.1 and an export rule with the unix flags cleared and
exactly the krb5 read-write flag set. -/
theorem anf_c5_witness :
    c5WitnessReq.protocolTypes = [ProtocolTypeNFSv41] ∧
    ∃ rule, c5WitnessReq.exportPolicy.rules = [rule] ∧
      rule.unixReadOnly = false ∧
      rule.unixReadWrite = false ∧
      (fixKerbPool.kerberos = MountOptionKerberos5 →
        (rule.kerberos5ReadWrite, rule.kerberos5IReadWrite, rule.kerberos5PReadWrite)
          = (true, false, false)) ∧
      (fixKerbPool.kerberos = MountOptionKerberos5I →
        (rule.kerberos5ReadWrite, rule.kerberos5IReadWrite, rule.kerberos5PReadWrite)
          = (false, true, false)) ∧
      (fixKerbPool.kerberos = MountOptionKerberos5P →
        (rule.kerberos5ReadWrite, rule.kerberos5IReadWrite, rule.kerberos5PReadWrite)
          = (false, false, true)) :=
  anf_c5 fixConfig [("pool1", fixKerbPool)] "pool1" fixVolConfig fixEnv fixKerbPool
    false true
    ([ProtocolTypeNFSv41], { rules := [applyKerberosToExportRule MountOptionKerberos5
        (baseNfsExportRule "0.0.0.0/0" true false)] })
    "plabels" fixSubnet rfl (by decide) (by decide) (by decide) (Or.inr rfl) rfl rfl
    rfl rfl rfl rfl rfl rfl rfl rfl (Or.inl rfl) c5WitnessReq (by decide)

/-- C6: for a Resize call that finds the volume: a request equal to the
current quota in the Available state is a no-op success with no backend
call; a smaller request always fails with no backend call; a state other
than Available always fails with no backend call; and for a larger request
the configured maximum is enforced before the backend resize call (a limit
failure issues no call, and the call is issued only once the limit check
passes). -/
theorem anf_c6 (config : DriverConfig) (volConfig : VolumeConfig) (sizeBytes : Nat)
    (env : ResizeEnv) (volume : FileSystem)
    (hrefresh : env.refreshErr = none)
    (hvol : env.volumeResult = Except.ok volume) :
    (volume.provisioningState = ProvisioningState.available →
       toInt64 sizeBytes = volume.quotaInBytes →
       (resize config volConfig sizeBytes env).result = none ∧
       (resize config volConfig sizeBytes env).calls = []) ∧
    (toInt64 sizeBytes < volume.quotaInBytes →
       ((resize config volConfig sizeBytes env).result).isSome = true ∧
       (resize config volConfig sizeBytes env).calls = []) ∧
    (volume.provisioningState ≠ ProvisioningState.available →
       ((resize config volConfig sizeBytes env).result).isSome = true ∧
       (resize config volConfig sizeBytes env).calls = []) ∧
    (∀ e, volume.provisioningState = ProvisioningState.available →
       volume.quotaInBytes < toInt64 sizeBytes →
       CheckVolumeSizeLimits sizeBytes config.limitVolumeSize = some e →
       (resize config volConfig sizeBytes env).result = some (DriverError.generic e) ∧
       (resize config volConfig sizeBytes env).calls = []) ∧
    (volume.provisioningState = ProvisioningState.available →
       volume.quotaInBytes < toInt64 sizeBytes →
       CheckVolumeSizeLimits sizeBytes config.limitVolumeSize = none →
       (resize config volConfig sizeBytes env).calls
         = [BackendCall.resizeVolume volume.id (toInt64 sizeBytes)]) := by
  refine ⟨?_, ?_, ?_, ?_, ?_⟩
  · intro hav heq
    constructor <;> simp [resize, hrefresh, hvol, hav, heq]
  · intro hlt
    by_cases hav : volume.provisioningState = ProvisioningState.available
    · have hne : ¬ toInt64 sizeBytes = volume.quotaInBytes := ne_of_lt hlt
      constructor <;> simp [resize, hrefresh, hvol, hav, hne, hlt]
    · constructor <;> simp [resize, hrefresh, hvol, hav]
  · intro hav
    constructor <;> simp [resize, hrefresh, hvol, hav]
  · intro e hav hgt hlim
    have hne : ¬ toInt64 sizeBytes = volume.quotaInBytes := by omega
    have hnlt : ¬ toInt64 sizeBytes < volume.quotaInBytes := by omega
    constructor <;> simp [resize, hrefresh, hvol, hav, hne, hnlt, hlim]
  · intro hav hgt hlim
    have hne : ¬ toInt64 sizeBytes = volume.quotaInBytes := by omega
    have hnlt : ¬ toInt64 sizeBytes < volume.quotaInBytes := by omega
    rcases hr : env.resizeErr with _ | e <;>
      simp [resize, hrefresh, hvol, hav, hne, hnlt, hlim, hr]

/-- Witness for C6 at concrete inputs: resizing an Available 100-GiB volume
to its current quota succeeds with no backend call. -/
theorem anf_c6_witness :
    (resize fixConfig fixVolConfig 107374182400 c6Env).result = none ∧
    (resize fixConfig fixVolConfig 107374182400 c6Env).calls = [] :=
  (anf_c6 fixConfig fixVolConfig 107374182400 c6Env fixVolume rfl rfl).1 rfl (by decide)

/-- C7 (amended): Destroy on a volume that does not exist returns success
with no backend call; on a volume already in the Deleting state it issues
no new delete call and only waits for the Deleted state using the longer
creation-class timeout, erroring only if that wait fails; otherwise it
issues the delete and then waits for Deleted with the default timeout — so
a second Destroy never issues a second delete call, though it can still
return an error when the wait for deletion fails. -/
theorem anf_c7 (volConfig : VolumeConfig) (env : DestroyEnv)
    (hrefresh : env.refreshErr = none)
    (hexists : env.volumeExistsErr = none) :
    (env.extantVolume = none → destroy volConfig env = (none, [])) ∧
    (∀ extant, env.extantVolume = some extant →
       extant.provisioningState = ProvisioningState.deleting →
       destroy volConfig env =
         (env.waitDeletingBranchErr.map DriverError.generic,
          [BackendCall.waitForVolumeState extant.id ProvisioningState.deleted
             TimeoutKind.volumeCreateTimeout])) ∧
    (∀ extant, env.extantVolume = some extant →
       extant.provisioningState ≠ ProvisioningState.deleting →
       env.deleteErr = none →
       destroy volConfig env =
         (env.waitDeletedErr.map DriverError.generic,
          [BackendCall.deleteVolume extant.id,
           BackendCall.waitForVolumeState extant.id ProvisioningState.deleted
             TimeoutKind.defaultTimeout])) := by
  refine ⟨?_, ?_, ?_⟩
  · intro h
    simp [destroy, hrefresh, hexists, h]
  · intro extant h hst
    simp [destroy, hrefresh, hexists, h, hst]
  · intro extant h hst hdel
    simp [destroy, hrefresh, hexists, h, hst, hdel]

/-- Witness for C7 at concrete inputs: Destroy on a non-existent volume
succeeds with no backend call. -/
theorem anf_c7_witness :
    destroy fixVolConfig c7EnvNone = (none, []) :=
  (anf_c7 fixVolConfig c7EnvNone rfl rfl).1 rfl

/-- Counterexample to C7 as frozen: calling Destroy twice on the same
volume CAN error the second time.  First call: the volume is Available, the
delete succeeds, but the wait for the Deleted state times out, so the call
errors.  Second call: the volume is now mid-delete (Deleting); no second
delete call is issued — only a wait with the creation-class timeout — but
that wait times out again, so the second call returns an error. -/
theorem anf_c7_counterexample :
    (destroy fixVolConfig c7EnvFirst).1.isSome = true ∧
    (destroy fixVolConfig c7EnvSecond).1.isSome = true ∧
    (destroy fixVolConfig c7EnvSecond).2 =
      [BackendCall.waitForVolumeState "id1" ProvisioningState.deleted
         TimeoutKind.volumeCreateTimeout] :=
  ⟨rfl, rfl, rfl⟩

/-- The source-snapshot resolution of CreateClone issues no volume create
call (it only creates and waits on snapshots). -/
theorem resolveCloneSourceSnapshot_no_create (env : CloneEnv) (sv : FileSystem) (snap : String)
    (req : FilesystemCreateRequest) :
    BackendCall.createVolume req ∉ (resolveCloneSourceSnapshot env sv snap).2 := by
  unfold resolveCloneSourceSnapshot
  by_cases hs : snap = ""
  · simp only [hs, ne_eq, not_true_eq_false, if_false, ite_false]
    rcases hc : env.createSnapshotResult with e | s
    · simp
    · rcases hw : env.waitSnapshotErr with _ | e
      · rcases hr : env.refetchSnapshotResult with e | s2 <;> simp [hw, hr]
      · simp [hw]
  · simp only [ne_eq, hs, not_false_eq_true, if_true, ite_true]
    rcases hf : env.snapshotForVolumeResult with e | s
    · simp
    · by_cases hav : s.provisioningState = ProvisioningState.available <;> simp [hav]

/-- A CreateClone call with the read-only-clone flag set never issues a
backend volume create call, on any path through the function. -/
theorem createClone_readonly_no_create (config : DriverConfig) (vc : VolumeConfig)
    (spu : Bool) (env : CloneEnv) (hro : vc.readOnlyClone = true)
    (req : FilesystemCreateRequest) :
    BackendCall.createVolume req ∉ (createClone config vc spu env).calls := by
  unfold createClone
  rcases hr : env.refreshErr with _ | e
  · by_cases hn : volumeNameMatches vc.name
    · by_cases ht : creationTokenMatches vc.internalName
      · rcases hv : env.sourceVolumeResult with e | sv
        · simp [hr, hn, ht, hv]
        · rcases hacp : (if sv.kerberosEnabled then env.acpInflightEncryptionErr else none)
            with _ | e
          · rcases hexists : env.volumeExistsByIDErr with _ | e
            · rcases hextant : env.extantVolume with _ | extant
              · rcases hsnap : resolveCloneSourceSnapshot env sv vc.cloneSourceSnapshotInternal
                  with ⟨e | ss, snapCalls⟩
                · have hnomem : BackendCall.createVolume req ∉ snapCalls := by
                    have hx := resolveCloneSourceSnapshot_no_create env sv
                      vc.cloneSourceSnapshotInternal req
                    rw [hsnap] at hx
                    exact hx
                  simp [hr, hn, ht, hv, hacp, hexists, hextant, hsnap, hnomem]
                · have hnomem : BackendCall.createVolume req ∉ snapCalls := by
                    have hx := resolveCloneSourceSnapshot_no_create env sv
                      vc.cloneSourceSnapshotInternal req
                    rw [hsnap] at hx
                    exact hx
                  by_cases hsd : sv.snapshotDirectory <;>
                    simp [hr, hn, ht, hv, hacp, hexists, hextant, hsnap, hro, hsd, hnomem]
              · by_cases hst : extant.provisioningState = ProvisioningState.creating <;>
                  simp [hr, hn, ht, hv, hacp, hexists, hextant, hst]
            · simp [hr, hn, ht, hv, hacp, hexists]
          · simp [hr, hn, ht, hv, hacp]
      · simp [hr, hn, ht]
    · simp [hr, hn]
  · simp [hr]

/-- C8: a CreateClone call with the read-only-clone flag set never issues a
backend volume create call; once it reaches the read-only branch it fails
exactly when the source volume lacks snapshot-directory access and succeeds
otherwise; and the NFS mount path of a read-only clone is rooted at the
clone source creation token and hidden snapshot directory with the clone
source snapshot name, while an ordinary volume path is rooted at the volume
own creation token. -/
theorem anf_c8
    (config : DriverConfig) (cloneVolConfig : VolumeConfig) (storagePoolUnset : Bool)
    (env : CloneEnv) (sourceVolume : FileSystem) (sourceSnapshot : Snapshot)
    (snapCalls : List BackendCall)
    (h1 : env.refreshErr = none)
    (h2 : volumeNameMatches cloneVolConfig.name = true)
    (h3 : creationTokenMatches cloneVolConfig.internalName = true)
    (h4 : env.sourceVolumeResult = Except.ok sourceVolume)
    (h5 : sourceVolume.kerberosEnabled = false ∨ env.acpInflightEncryptionErr = none)
    (h6 : env.volumeExistsByIDErr = none)
    (h7 : env.extantVolume = none)
    (h8 : resolveCloneSourceSnapshot env sourceVolume cloneVolConfig.cloneSourceSnapshotInternal
            = (Except.ok sourceSnapshot, snapCalls))
    (hro : cloneVolConfig.readOnlyClone = true) :
    (∀ config2 vc2 sp2 env2, vc2.readOnlyClone = true →
       ∀ req, BackendCall.createVolume req ∉ (createClone config2 vc2 sp2 env2).calls) ∧
    (sourceVolume.snapshotDirectory = false →
       (createClone config cloneVolConfig storagePoolUnset env).result
         = some (DriverError.generic
             "snapshot directory access is set to false and readOnly clone is set to true ")) ∧
    (sourceVolume.snapshotDirectory = true →
       (createClone config cloneVolConfig storagePoolUnset env).result = none) ∧
    (∀ vol, constructVolumeAccessPath cloneVolConfig vol NASTypeNFS
       = "/" ++ cloneVolConfig.cloneSourceVolumeInternal ++ "/.snapshot/"
           ++ cloneVolConfig.cloneSourceSnapshot) ∧
    (∀ vc3 vol3, vc3.readOnlyClone = false →
       constructVolumeAccessPath vc3 vol3 NASTypeNFS = "/" ++ vol3.creationToken) := by
  refine ⟨fun c2 vc2 sp2 env2 hro2 req => createClone_readonly_no_create c2 vc2 sp2 env2 hro2 req,
    ?_, ?_, ?_, ?_⟩
  · intro hsd
    rcases h5 with h5 | h5 <;>
      simp [createClone, h1, h2, h3, h4, h5, h6, h7, h8, hro, hsd]
  · intro hsd
    rcases h5 with h5 | h5 <;>
      simp [createClone, h1, h2, h3, h4, h5, h6, h7, h8, hro, hsd]
  · intro vol
    simp [constructVolumeAccessPath, NASTypeNFS, hro, String.append_assoc]
  · intro vc3 vol3 hro3
    simp [constructVolumeAccessPath, NASTypeNFS, hro3]

/-- Witness for C8 at concrete inputs: a read-only clone of a source with
snapshot-directory access succeeds, and its NFS mount path points into the
source hidden snapshot directory. -/
theorem anf_c8_witness :
    (createClone fixConfig roCloneVolConfig false c8CloneEnv).result = none ∧
    constructVolumeAccessPath roCloneVolConfig fixVolume NASTypeNFS
      = "/src-vol/.snapshot/snap1" := by
  have h := anf_c8 fixConfig roCloneVolConfig false c8CloneEnv c8SourceVolume c8Snapshot []
    rfl (by decide) (by decide) rfl (Or.inl rfl) rfl rfl rfl rfl
  exact ⟨h.2.2.1 rfl, (h.2.2.2.1 fixVolume).trans (by decide)⟩

/-- The List filtering loop agrees with the specification formulation:
strip the prefix from every prefixed creation token, excluding exactly the
volumes in the Deleting, Deleted or Error state. -/
theorem listVolumeNames_eq_spec (pfx : String) (volumes : List FileSystem) :
    listVolumeNames pfx volumes = listVolumeNamesSpec pfx volumes := by
  induction volumes with
  | nil => rfl
  | cons v rest ih =>
      cases hst : v.provisioningState <;>
        by_cases hp : hasPfx v.creationToken pfx <;>
          simp [listVolumeNames, listVolumeNamesSpec, List.filter_cons, hst, hp, ih]

/-- C9: List returns exactly the names obtained by stripping the configured
storage prefix from the creation token of each backend volume whose token
starts with that prefix, excluding every volume in the Deleting, Deleted or
Error provisioning state and keeping volumes in every other state
(including Creating). -/
theorem anf_c9 (config : DriverConfig) (env : ListEnv) (volumes : List FileSystem)
    (hrefresh : env.refreshErr = none)
    (hvols : env.volumesResult = Except.ok volumes) :
    listOp config env = Except.ok (listVolumeNamesSpec config.storagePfx volumes) := by
  simp [listOp, hrefresh, hvols, listVolumeNames_eq_spec]

/-- Witness for C9 at concrete inputs: six volumes in assorted states; the
Deleting, Deleted and Error ones are dropped, the unprefixed one is
dropped, and the Available and Creating ones are returned stripped. -/
theorem anf_c9_witness :
    listOp fixConfig c9Env = Except.ok (listVolumeNamesSpec "trident-" c9Volumes) ∧
    listVolumeNamesSpec "trident-" c9Volumes = ["a", "b"] :=
  ⟨anf_c9 fixConfig c9Env c9Volumes rfl rfl, by decide⟩

/-- C10: on an NFS backend with no kerberos mode, the NFS version derived
from the effective mount options (defaulting to 3) determines the create
request: an unsupported version fails before any backend create call;
version 3 yields protocol type NFSv3 with NFSv3 export access; versions 4
and 4.1 both yield protocol type NFSv4.1 with NFSv4.1 (not NFSv3) export
access. -/
theorem anf_c10
    (config : DriverConfig) (pools : List (String × PoolInternalAttributes)) (spName : String)
    (volConfig : VolumeConfig) (env : SdkCreateEnv) (pool : PoolInternalAttributes)
    (sdb kEnabled : Bool)
    (h1 : env.refreshErr = none)
    (h2 : volumeNameMatches volConfig.name = true)
    (h3 : creationTokenMatches volConfig.internalName = true)
    (h4 : pools.lookup spName = some pool)
    (h6 : env.volumeExistsErr = none)
    (h7 : env.extantVolume = none)
    (h8 : CheckMinVolumeSize (resolveSizeBytes volConfig.size pool.size) MinimumVolumeSizeBytes = none)
    (h9 : CheckVolumeSizeLimits (raiseToANFMinimum (resolveSizeBytes volConfig.size pool.size))
            config.limitVolumeSize = none)
    (h10 : parseBool (if volConfig.snapshotDir = "" then pool.snapshotDir else volConfig.snapshotDir)
             = Except.ok sdb)
    (h11 : kerberosEnabledFor pool.kerberos = Except.ok kEnabled)
    (hnas : config.nasType = NASTypeNFS)
    (hkerb : pool.kerberos = "") :
    ((∀ e, GetNFSVersionFromMountOptions
        (if volConfig.mountOptions.raw ≠ "" then volConfig.mountOptions else config.nfsMountOptions)
        nfsVersion3 supportedNFSVersions = Except.error e →
      (create config pools (some spName) volConfig env).result = some (DriverError.generic e) ∧
      (create config pools (some spName) volConfig env).calls = []) ∧
     (∀ plJSON subnet, env.poolLabels = Except.ok plJSON → env.subnet = some subnet →
      GetNFSVersionFromMountOptions
        (if volConfig.mountOptions.raw ≠ "" then volConfig.mountOptions else config.nfsMountOptions)
        nfsVersion3 supportedNFSVersions = Except.ok nfsVersion3 →
      ∀ req, BackendCall.createVolume req ∈ (create config pools (some spName) volConfig env).calls →
        req.protocolTypes = [ProtocolTypeNFSv3] ∧
        ∃ rule, req.exportPolicy.rules = [rule] ∧ rule.nfsv3 = true ∧ rule.nfsv41 = false) ∧
     (∀ plJSON subnet nv, env.poolLabels = Except.ok plJSON → env.subnet = some subnet →
      GetNFSVersionFromMountOptions
        (if volConfig.mountOptions.raw ≠ "" then volConfig.mountOptions else config.nfsMountOptions)
        nfsVersion3 supportedNFSVersions = Except.ok nv →
      (nv = nfsVersion4 ∨ nv = nfsVersion41) →
      ∀ req, BackendCall.createVolume req ∈ (create config pools (some spName) volConfig env).calls →
        req.protocolTypes = [ProtocolTypeNFSv41] ∧
        ∃ rule, req.exportPolicy.rules = [rule] ∧ rule.nfsv41 = true ∧ rule.nfsv3 = false)) := by
  have hkE : kEnabled = false := by
    rw [hkerb] at h11
    simpa [kerberosEnabledFor, MountOptionKerberos5, MountOptionKerberos5I,
      MountOptionKerberos5P] using h11.symm
  have hsmb : ¬ (NASTypeNFS = NASTypeSMB) := by simp [NASTypeNFS, NASTypeSMB]
  refine ⟨?_, ?_, ?_⟩
  · intro e hv
    have hvx : GetNFSVersionFromMountOptions
        (if volConfig.mountOptions.raw = "" then config.nfsMountOptions else volConfig.mountOptions)
        nfsVersion3 supportedNFSVersions = Except.error e := by
      simpa [ite_not] using hv
    have hre : resolveProtocolInfo config.nasType
        (if volConfig.mountOptions.raw = "" then config.nfsMountOptions else volConfig.mountOptions)
        pool.exportRule pool.kerberos kEnabled = Except.error e := by
      rw [resolveProtocolInfo, hnas, if_neg hsmb, hvx]
    rw [hkerb] at h11 hre
    constructor <;>
      simp [create, h1, h2, h3, h4, hkerb, h6, h7, h8, h9, h10, h11, hre]
  · intro plJSON subnet h13 h14 hv req hreq
    have h12 : resolveProtocolInfo config.nasType
        (if volConfig.mountOptions.raw ≠ "" then volConfig.mountOptions else config.nfsMountOptions)
        pool.exportRule pool.kerberos kEnabled =
        Except.ok ([ProtocolTypeNFSv3],
          { rules := [baseNfsExportRule pool.exportRule true false] }) := by
      rw [resolveProtocolInfo, hnas, if_neg hsmb, hv, hkE]
      simp [nfsAccessFlags, nfsProtocolTypesFor]
    have hu := create_eq_placementTail config pools spName volConfig env pool sdb kEnabled
      _ plJSON subnet h1 h2 h3 h4 (Or.inl hkerb) h6 h7 h8 h9 h10 h11 h12 h13 h14
    rw [hu] at hreq
    obtain ⟨p, hp, hreqeq⟩ := createPlacementTail_createVolume_mem _ _ _ _ _ _ hreq
    subst hreqeq
    refine ⟨by simp [mkCreateRequest, hnas], baseNfsExportRule pool.exportRule true false,
      by simp [mkCreateRequest, hnas], by simp [baseNfsExportRule], by simp [baseNfsExportRule]⟩
  · intro plJSON subnet nv h13 h14 hv hnv req hreq
    have haf : nfsAccessFlags nv = (false, true) := by
      rcases hnv with hnv | hnv <;>
        simp [nfsAccessFlags, hnv, nfsVersion3, nfsVersion4, nfsVersion41]
    have hpt : nfsProtocolTypesFor nv = [ProtocolTypeNFSv41] := by
      rcases hnv with hnv | hnv <;>
        simp [nfsProtocolTypesFor, hnv, nfsVersion3, nfsVersion4, nfsVersion41]
    have h12 : resolveProtocolInfo config.nasType
        (if volConfig.mountOptions.raw ≠ "" then volConfig.mountOptions else config.nfsMountOptions)
        pool.exportRule pool.kerberos kEnabled =
        Except.ok ([ProtocolTypeNFSv41],
          { rules := [baseNfsExportRule pool.exportRule false true] }) := by
      rw [resolveProtocolInfo, hnas, if_neg hsmb, hv, hkE]
      simp [haf, hpt]
    have hu := create_eq_placementTail config pools spName volConfig env pool sdb kEnabled
      _ plJSON subnet h1 h2 h3 h4 (Or.inl hkerb) h6 h7 h8 h9 h10 h11 h12 h13 h14
    rw [hu] at hreq
    obtain ⟨p, hp, hreqeq⟩ := createPlacementTail_createVolume_mem _ _ _ _ _ _ hreq
    subst hreqeq
    refine ⟨by simp [mkCreateRequest, hnas], baseNfsExportRule pool.exportRule false true,
      by simp [mkCreateRequest, hnas], by simp [baseNfsExportRule], by simp [baseNfsExportRule]⟩

/-- Witness for C10 at concrete inputs: with NFSv3 mount options the issued
request has protocol type NFSv3 and NFSv3 export access without NFSv4.1
access. -/
theorem anf_c10_witness :
    c10WitnessReq.protocolTypes = [ProtocolTypeNFSv3] ∧
    ∃ rule, c10WitnessReq.exportPolicy.rules = [rule] ∧
      rule.nfsv3 = true ∧ rule.nfsv41 = false := by
  have h := anf_c10 fixConfig [("pool1", fixPool)] "pool1" fixVolConfig fixEnv fixPool
    false false rfl (by decide) (by decide) (by decide) rfl rfl rfl rfl rfl rfl rfl rfl
  exact h.2.1 "plabels" fixSubnet rfl rfl rfl c10WitnessReq (by decide)

end ANF
